import Mathlib

/-!
Verification of the service-supervisor scripts of `dynamic_ai_chatbot`.

This file gives a shallow embedding of the behaviour of `start_all.sh` (the
service Supervisor: port pre-flight, sequential launch with readiness gating,
liveness monitoring, trap-based cleanup) and of the launch portion of
`quick_start.sh`, and proves properties of that embedding.

Modelling conventions:
* A running OS process is a `Proc` (pid, the port it is bound to if any, and
  whether it terminates upon receiving SIGTERM — ordinary processes do, a
  process that ignores SIGTERM does not).  The set of running processes is a
  `List Proc`.
* Shell observable actions (signals sent, sleeps, launches, probe attempts,
  messages) are recorded as `Event`s in execution order.
* `curl -s URL` (no `--fail` flag) exits 0 whenever an HTTP transaction
  completes, whatever the response status code; it exits non-zero on a
  connection failure.  This is embedded by `curl_s_exit`.
* bash trap semantics: `trap cleanup SIGINT SIGTERM EXIT` is installed once
  and never cleared.  `exit N` anywhere in the script fires the EXIT trap,
  so `cleanup` runs; `cleanup` itself ends in `exit 0`, and an `exit` issued
  inside a trap handler determines the final process status, so every
  termination path of the script ends with status 0.  When `cleanup` is
  entered from the SIGINT/SIGTERM trap, its final `exit 0` fires the still
  installed EXIT trap, which runs `cleanup` a second time (the EXIT trap does
  not re-fire from within itself).  This is embedded by `scriptExit`,
  `scriptEnd` and `signal_shutdown`.
-/

namespace StartAll

/-- A running OS process: its pid, the TCP port it is bound to (if any) as
observed by `lsof`, and whether delivery of SIGTERM terminates it. -/
structure Proc where
  pid : Nat
  port : Option Nat
  diesOnTERM : Bool
deriving DecidableEq, Repr

/-- The set of currently running processes. -/
abbrev World := List Proc

/-- Observable actions of the scripts, in execution order. -/
inductive Event where
  | installTrap
  | rmPidFile
  | sigTERM (pid : Nat)
  | sigKILL (pid : Nat)
  | sleep (secs : Nat)
  | pkillPat (pattern : String)
  | launch (idx : Nat) (pid : Nat)
  | probeAttempt (idx : Nat) (time : Nat)
  | ready (idx : Nat)
  | errorMsg (idx : Nat)
  | abort (code : Nat)
  | cleanupStart
  | restartSvc (idx : Nat)
  | portCheck (idx : Nat) (up : Bool)
deriving DecidableEq, Repr

/-- The three fixed service ports of `start_all.sh`:
`CHATBOT_PORT=8000`, `DASHBOARD_BACKEND_PORT=5000`,
`DASHBOARD_FRONTEND_PORT=3000`, indexed by startup order. -/
def svcPort : Nat → Nat
  | 0 => 8000
  | 1 => 5000
  | _ => 3000

/-- Delivering SIGTERM to pid `p`: every process with that pid that does not
ignore SIGTERM terminates. -/
def sendTERM (w : World) (p : Nat) : World :=
  w.filter (fun pr => !(pr.pid == p && pr.diesOnTERM))

/-- Is some process with pid `p` running (`kill -0 $pid`)? -/
def alive (w : World) (p : Nat) : Bool :=
  w.any (fun pr => pr.pid == p)

/-- Pids of the processes bound to `port` (`lsof -ti :port`). -/
def portPids (w : World) (port : Nat) : List Nat :=
  (w.filter (fun pr => pr.port == some port)).map (fun pr => pr.pid)

/-- `check_port` of `start_all.sh`: is some process listening on `port`? -/
def check_port (w : World) (port : Nat) : Bool :=
  !(portPids w port).isEmpty

/-- `kill_port` of `start_all.sh` (lines 53-61): look up the pids on the
port; if non-empty, send SIGKILL (`kill -9`) to them at once and `sleep 2`.
No graceful signal is ever sent. -/
def kill_port (w : World) (port : Nat) : World × List Event :=
  let pids := portPids w port
  if pids.isEmpty then (w, [])
  else (w.filter (fun pr => !(pr.port == some port)),
        pids.map Event.sigKILL ++ [Event.sleep 2])

/-- The `while read pid` loop of `cleanup` (lines 118-123): for each pid in
the registry file, if it is alive (`kill -0`), run
`kill -TERM "$pid" 2>/dev/null || kill -9 "$pid" 2>/dev/null || true`.
Since the pid was just seen alive the `kill -TERM` command succeeds in
sending the signal (exit status 0), so the `kill -9` branch never runs:
each live registered pid receives exactly one SIGTERM and is never
force-killed through this loop, however it reacts to SIGTERM. -/
def term_loop (w : World) : List Nat → World × List Event
  | [] => (w, [])
  | p :: rest =>
    if alive w p then
      let r := term_loop (sendTERM w p) rest
      (r.1, Event.sigTERM p :: r.2)
    else term_loop w rest

/-- Script state: running processes, the `.service_pids` registry file
(`none` = file absent), the event trace, the script's final exit status
(`none` while still running), and a snapshot of the registry file at the
moment `cleanup` was first invoked (`none` if it never ran). -/
structure St where
  world : World
  pidFile : Option (List Nat)
  events : List Event
  exitCode : Option Nat
  atCleanup : Option (Option (List Nat))
deriving DecidableEq, Repr

/-- The effect of one execution of the body of `cleanup` (lines 114-133) on
the running processes, given the registry-file content: TERM-loop over the
registry file, then `kill_port` on ports 8000, 5000, 3000 as backup.
Returns the surviving processes and the emitted events. -/
def cleanup_core (w : World) (f : Option (List Nat)) : World × List Event :=
  let r1 := match f with
    | none => (w, ([] : List Event))
    | some pids => term_loop w pids
  let r2 := kill_port r1.1 8000
  let r3 := kill_port r2.1 5000
  let r4 := kill_port r3.1 3000
  (r4.1, r1.2 ++ r2.2 ++ r3.2 ++ r4.2)

/-- One execution of the body of `cleanup` (lines 114-133): TERM-loop over
the registry file, `rm -f .service_pids` (so the registry file is absent
afterwards), then `kill_port` on ports 8000, 5000, 3000 as backup. -/
def cleanup_run (st : St) : St :=
  { st with world := (cleanup_core st.world st.pidFile).1,
            pidFile := none,
            events := st.events ++ Event.cleanupStart ::
                      (cleanup_core st.world st.pidFile).2 }

/-- `exit code` executed in the script body: the EXIT trap fires, `cleanup`
runs, and its own `exit 0` makes the final status 0 whatever `code` was. -/
def scriptExit (code : Nat) (st : St) : St :=
  let st1 := cleanup_run { st with
    events := st.events ++ [Event.abort code], atCleanup := some st.pidFile }
  { st1 with exitCode := some 0 }

/-- The script falling off its end (after the monitor loop `break`s): the
EXIT trap fires, `cleanup` runs, final status 0. -/
def scriptEnd (st : St) : St :=
  let st1 := cleanup_run { st with atCleanup := some st.pidFile }
  { st1 with exitCode := some 0 }

/-- SIGINT/SIGTERM delivered to the script: the signal trap runs `cleanup`;
the `exit 0` at the end of `cleanup` fires the still-installed EXIT trap,
which runs `cleanup` a second time; the final status is 0. -/
def signal_shutdown (st : St) : St :=
  let st1 := cleanup_run { st with atCleanup := some st.pidFile }
  let st2 := cleanup_run st1
  { st2 with exitCode := some 0 }

/-- `max_attempts=30` of `wait_for_service`. -/
def max_attempts : Nat := 30

/-- The `while [ $attempt -le $max_attempts ]` loop of `wait_for_service`
(lines 64-85), with `fuel` the number of remaining attempts: probe (via
`curl -s`, abstracted as `probe : attempt number → Bool`) at the current
time; on success stop, on failure `sleep 2` and retry.  Returns the times at
which probes were issued and whether one succeeded. -/
def wfs_from (probe : Nat → Bool) : Nat → Nat → Nat → List Nat × Bool
  | 0, _, _ => ([], false)
  | fuel + 1, attempt, time =>
    if probe attempt then ([time], true)
    else
      let r := wfs_from probe fuel (attempt + 1) (time + 2)
      (time :: r.1, r.2)

/-- `wait_for_service` of `start_all.sh`: attempts numbered from 1, first
probe immediately (time 0), at most 30 attempts, 2 seconds between
attempts. -/
def wait_for_service (probe : Nat → Bool) : List Nat × Bool :=
  wfs_from probe max_attempts 1 0

/-- Outcome of one `curl -s "$url"` invocation. -/
inductive ProbeOutcome where
  | connFail
  | httpResponse (status : Nat)
deriving DecidableEq, Repr

/-- Exit status of `curl -s "$url" >/dev/null 2>&1` as a Bool (`true` =
exit 0).  Without `--fail`, curl exits 0 whenever it receives any HTTP
response, whatever the status code (including 4xx/5xx); only a connection
failure makes it exit non-zero. -/
def curl_s_exit : ProbeOutcome → Bool
  | ProbeOutcome.connFail => false
  | ProbeOutcome.httpResponse _ => true

/-- The probe function induced by a sequence of per-attempt curl outcomes. -/
def probeOfOutcomes (o : Nat → ProbeOutcome) : Nat → Bool :=
  fun a => curl_s_exit (o a)

/-- Environment of one run of `start_all.sh`: the pre-flight facts the
script branches on, the processes already running before the script starts,
a possibly stale registry file left by an earlier run, the pids the OS
assigns to the three launched services, whether each launched service binds
its port and dies on SIGTERM, the per-attempt result of each service's
readiness probe (`curl -s` exit as a Bool), and the sequence of port
observations the monitor loop makes (one entry per 10-second round;
`tick i = true` means service `i`'s port is seen held). -/
structure Env where
  inProjectRoot : Bool
  nodeInstalled : Bool
  npmInstalled : Bool
  preexisting : World
  stalePidFile : Option (List Nat)
  svcPid : Nat → Nat
  svcBindsPort : Nat → Bool
  svcDiesOnTERM : Nat → Bool
  probe : Nat → Nat → Bool
  monitorTicks : List (Nat → Bool)

/-- The process created by launching service `i`. -/
def svcProc (env : Env) (i : Nat) : Proc :=
  { pid := env.svcPid i,
    port := if env.svcBindsPort i then some (svcPort i) else none,
    diesOnTERM := env.svcDiesOnTERM i }

/-- `start_service` (lines 88-111): spawn the service in the background and
append its pid to `.service_pids` (creating the file if absent). -/
def launch_service (env : Env) (i : Nat) (st : St) : St :=
  { st with world := svcProc env i :: st.world,
            pidFile := some (st.pidFile.getD [] ++ [env.svcPid i]),
            events := st.events ++ [Event.launch i (env.svcPid i)] }

/-- The probe-attempt events of one `wait_for_service` call. -/
def probe_events (i : Nat) (ts : List Nat) : List Event :=
  ts.map (Event.probeAttempt i)

/-- One launch stage (lines 211-251): `start_service`, then
`wait_for_service`; on readiness continue with `next`, on timeout
`print_error` and `exit 1`. -/
def run_stage (env : Env) (i : Nat) (next : St → St) (st : St) : St :=
  let st1 := launch_service env i st
  let r := wait_for_service (env.probe i)
  if r.2 then
    next { st1 with events := st1.events ++ probe_events i r.1 ++ [Event.ready i] }
  else
    scriptExit 1 { st1 with events := st1.events ++ probe_events i r.1 ++ [Event.errorMsg i] }

/-- The monitor loop (lines 288-306): each round `check_port` on services
0, 1, 2 in order; on the first port found free, `print_error` and `break`
(falling off the script's end, which fires the EXIT trap); otherwise
`sleep 10` and repeat.  The loop is driven by the environment's finite list
of port observations; an exhausted list means the stack is still healthy
and the script is still running. -/
def run_monitor_go : List (Nat → Bool) → St → St
  | [], st => st
  | tick :: rest, st =>
    if tick 0 = false then
      scriptEnd { st with events := st.events ++
        [Event.portCheck 0 false, Event.errorMsg 0] }
    else if tick 1 = false then
      scriptEnd { st with events := st.events ++
        [Event.portCheck 0 true, Event.portCheck 1 false, Event.errorMsg 1] }
    else if tick 2 = false then
      scriptEnd { st with events := st.events ++
        [Event.portCheck 0 true, Event.portCheck 1 true,
         Event.portCheck 2 false, Event.errorMsg 2] }
    else
      run_monitor_go rest { st with events := st.events ++
        [Event.portCheck 0 true, Event.portCheck 1 true,
         Event.portCheck 2 true, Event.sleep 10] }

/-- Monitoring phase entered once all three services are ready. -/
def run_monitor (env : Env) (st : St) : St :=
  run_monitor_go env.monitorTicks st

/-- Stage 3: Dashboard Frontend (port 3000), then the monitor loop. -/
def run_stage2 (env : Env) (st : St) : St :=
  run_stage env 2 (run_monitor env) st

/-- Stage 2: Dashboard Backend (port 5000), then stage 3. -/
def run_stage1 (env : Env) (st : St) : St :=
  run_stage env 1 (run_stage2 env) st

/-- Stage 1: Main Chatbot API (port 8000), then stage 2. -/
def run_stage0 (env : Env) (st : St) : St :=
  run_stage env 0 (run_stage1 env) st

/-- One pre-flight check (lines 155-168): if the port is in use, kill the
occupant with `kill_port`. -/
def preflight_one (port : Nat) (st : St) : St :=
  if check_port st.world port then
    let r := kill_port st.world port
    { st with world := r.1, events := st.events ++ r.2 }
  else st

/-- The three pre-flight port checks, in script order 8000, 5000, 3000. -/
def preflight (st : St) : St :=
  preflight_one 3000 (preflight_one 5000 (preflight_one 8000 st))

/-- Dependency checks (lines 188-196): missing `node` or `npm` is
`print_error; exit 1`; otherwise the launch stages run. -/
def run_deps_and_services (env : Env) (st : St) : St :=
  if env.nodeInstalled = false then scriptExit 1 st
  else if env.npmInstalled = false then scriptExit 1 st
  else run_stage0 env st

/-- Initial state: the trap is installed (line 137) before anything else
the model tracks. -/
def initSt (env : Env) : St :=
  { world := env.preexisting, pidFile := env.stalePidFile,
    events := [Event.installTrap], exitCode := none, atCleanup := none }

/-- One full run of `start_all.sh`: install the trap; directory pre-flight
(lines 144-147, `exit 1` if not at the project root); `rm -f .service_pids`
(line 151); the three port pre-flights; the node/npm checks; then the three
gated launch stages and the monitor loop. -/
def run_start_all (env : Env) : St :=
  let st0 := initSt env
  if env.inProjectRoot = false then scriptExit 1 st0
  else
    let st1 := { st0 with pidFile := none,
                          events := st0.events ++ [Event.rmPidFile] }
    run_deps_and_services env (preflight st1)

/-- The launch portion of `quick_start.sh` (lines 9-30): four `pkill`
pattern kills, `sleep 2`, then the three services are started back to back
with `&`, with no readiness probing between launches. -/
def quick_start_events (p0 p1 p2 : Nat) : List Event :=
  [Event.pkillPat "python.*runner.py", Event.pkillPat "python.*src/main.py",
   Event.pkillPat "python.*app.py", Event.pkillPat "npm.*start",
   Event.sleep 2,
   Event.launch 0 p0, Event.launch 1 p1, Event.launch 2 p2]

/-- Is an event an `exit`ing abort? -/
def isAbortE : Event → Bool
  | Event.abort _ => true
  | _ => false

/-- Is an event a service launch? -/
def isLaunchE : Event → Bool
  | Event.launch _ _ => true
  | _ => false

/-- The readiness gate checked at one event, given the events already seen:
a launch of service `j+1` is admissible only if service `j` was already
seen `Ready` or the sequence already aborted; every other event is
admissible. -/
def launchOK (seen : List Event) : Event → Bool
  | Event.launch (j + 1) _ =>
      decide (Event.ready j ∈ seen) || seen.any isAbortE
  | _ => true

/-- Scan of an event trace checking the readiness gate at every event. -/
def gatedFrom (seen : List Event) : List Event → Bool
  | [] => true
  | e :: rest => launchOK seen e && gatedFrom (seen ++ [e]) rest

/-- A trace respects sequential readiness gating if every launch of service
`i+1` is preceded by `Ready` of service `i` or by an abort. -/
def gatedLaunches (l : List Event) : Bool :=
  gatedFrom [] l

/-- Events that the `cleanup` / `kill_port` machinery can emit. -/
def isCleanupEv : Event → Bool
  | Event.cleanupStart => true
  | Event.sigTERM _ => true
  | Event.sigKILL _ => true
  | Event.sleep s => s == 2
  | _ => false

/-- The probe times recorded in a trace for service `i`. -/
def probeTimes (i : Nat) (l : List Event) : List Nat :=
  l.filterMap (fun e => match e with
    | Event.probeAttempt j t => if j = i then some t else none
    | _ => none)

/-- The pids recorded by launch events of a trace, in order. -/
def launchPids (l : List Event) : List Nat :=
  l.filterMap (fun e => match e with
    | Event.launch _ p => some p
    | _ => none)

/-- The registry-file content at the moment cleanup first ran (reading an
absent file as the empty pid list), or the current content if cleanup has
not run. -/
def fileListAtCleanup (st : St) : List Nat :=
  match st.atCleanup with
  | some f => f.getD []
  | none => st.pidFile.getD []

/-- Events that are neither launches, nor probe attempts, nor restarts:
the bookkeeping events emitted by the pre-flight kills, the monitor rounds
and the cleanup machinery. -/
def blandEv : Event → Bool
  | Event.launch _ _ => false
  | Event.probeAttempt _ _ => false
  | Event.restartSvc _ => false
  | _ => true

/-- No process is bound to `port`. -/
def portFree (w : World) (port : Nat) : Bool :=
  (portPids w port).isEmpty

/-- A run in which every readiness probe of the first service fails
(service 0's probe target never answers) while everything else is healthy:
the concrete input used to witness the readiness-timeout behaviour. -/
def envTimeout0 : Env :=
  { inProjectRoot := true, nodeInstalled := true, npmInstalled := true,
    preexisting := [], stalePidFile := none,
    svcPid := fun i => 100 + i,
    svcBindsPort := fun _ => true,
    svcDiesOnTERM := fun _ => true,
    probe := fun _ _ => false,
    monitorTicks := [] }

/-- A post-startup state with one registered, running, port-bound service,
used to count cleanup executions after a single interrupt signal. -/
def stSignal : St :=
  { world := [{ pid := 9, port := some 8000, diesOnTERM := true }],
    pidFile := some [9], events := [], exitCode := none, atCleanup := none }

/-- A readiness-timeout run used to observe the script's final exit
status (service 0's probe never succeeds, so the script executes
`exit 1`). -/
def envExitProbe : Env :=
  { inProjectRoot := true, nodeInstalled := true, npmInstalled := true,
    preexisting := [], stalePidFile := none,
    svcPid := fun i => 100 + i,
    svcBindsPort := fun _ => true,
    svcDiesOnTERM := fun _ => true,
    probe := fun _ _ => false,
    monitorTicks := [] }

/-- A single foreign process bound to port 8000, the occupant terminated by
the Port Reservation Check. -/
def wOccupied : World :=
  [{ pid := 100, port := some 8000, diesOnTERM := true }]

/-- A shutdown state with one registered process that ignores SIGTERM and
holds no port: it survives `cleanup` even though it is still alive after
the TERM signal. -/
def stStubborn : St :=
  { world := [{ pid := 77, port := none, diesOnTERM := false }],
    pidFile := some [77], events := [], exitCode := none, atCleanup := none }

/-- A run aborted by the directory pre-flight check (`requirements.txt` or
`runner.py` missing), with a foreign process bound to port 8000. -/
def envWrongDir : Env :=
  { inProjectRoot := false, nodeInstalled := true, npmInstalled := true,
    preexisting := [{ pid := 55, port := some 8000, diesOnTERM := false }],
    stalePidFile := none,
    svcPid := fun i => 100 + i,
    svcBindsPort := fun _ => true,
    svcDiesOnTERM := fun _ => true,
    probe := fun _ _ => true,
    monitorTicks := [] }

/-- A fully healthy startup followed by a monitor-detected death of service
1 in the second monitoring round. -/
def envMonitorFail : Env :=
  { inProjectRoot := true, nodeInstalled := true, npmInstalled := true,
    preexisting := [], stalePidFile := none,
    svcPid := fun i => 100 + i,
    svcBindsPort := fun _ => true,
    svcDiesOnTERM := fun _ => true,
    probe := fun _ _ => true,
    monitorTicks := [fun _ => true, fun i => !(i == 1)] }

/-- A monitor state used to witness claim 8: registry holds three pids, the
first round is healthy, the second sees service 0's port free. -/
def stMonitor : St :=
  { world := [], pidFile := some [1, 2, 3], events := [],
    exitCode := none, atCleanup := none }

/-! ## Generic list helpers -/

theorem all_not_mem {α : Type} {p : α → Bool} {l : List α}
    (h : l.all p = true) {x : α} (hx : p x = false) : x ∉ l := by
  intro hmem
  have h1 := List.all_eq_true.mp h x hmem
  rw [hx] at h1
  exact Bool.false_ne_true h1

theorem count_eq_zero_of_all {p : Event → Bool} {l : List Event}
    (h : l.all p = true) {x : Event} (hx : p x = false) : l.count x = 0 :=
  List.count_eq_zero.mpr (all_not_mem h hx)

/-! ## Facts about `blandEv`, `isCleanupEv` and trace projections -/

theorem cleanupEv_bland {e : Event} (h : isCleanupEv e = true) :
    blandEv e = true := by
  cases e <;> simp_all [isCleanupEv, blandEv]

theorem all_bland_of_all_cleanupEv {l : List Event}
    (h : l.all isCleanupEv = true) : l.all blandEv = true := by
  rw [List.all_eq_true] at h ⊢
  exact fun e he => cleanupEv_bland (h e he)

theorem probeTimes_append (i : Nat) (a b : List Event) :
    probeTimes i (a ++ b) = probeTimes i a ++ probeTimes i b := by
  simp [probeTimes, List.filterMap_append]

theorem probeTimes_nil_of_bland {l : List Event}
    (h : l.all blandEv = true) (i : Nat) : probeTimes i l = [] := by
  rw [probeTimes, List.filterMap_eq_nil_iff]
  intro e he
  have hb := List.all_eq_true.mp h e he
  cases e <;> simp_all [blandEv]

theorem launchPids_append (a b : List Event) :
    launchPids (a ++ b) = launchPids a ++ launchPids b := by
  simp [launchPids, List.filterMap_append]

theorem launchPids_nil_of_bland {l : List Event}
    (h : l.all blandEv = true) : launchPids l = [] := by
  rw [launchPids, List.filterMap_eq_nil_iff]
  intro e he
  have hb := List.all_eq_true.mp h e he
  cases e <;> simp_all [blandEv]

theorem probeTimes_probe_events_self (i : Nat) (ts : List Nat) :
    probeTimes i (probe_events i ts) = ts := by
  induction ts with
  | nil => rfl
  | cons t ts ih =>
    simp [probeTimes, probe_events, List.filterMap_cons] at ih ⊢
    exact ih

theorem probeTimes_probe_events_ne {i j : Nat} (h : j ≠ i) (ts : List Nat) :
    probeTimes i (probe_events j ts) = [] := by
  induction ts with
  | nil => rfl
  | cons t ts ih =>
    simp [probeTimes, probe_events, List.filterMap_cons, h]

theorem launchPids_probe_events (j : Nat) (ts : List Nat) :
    launchPids (probe_events j ts) = [] := by
  induction ts with
  | nil => rfl
  | cons t ts ih =>
    simp [launchPids, probe_events, List.filterMap_cons]

theorem noLaunch_of_bland {l : List Event} (h : l.all blandEv = true) :
    ∀ e ∈ l, isLaunchE e = false := by
  intro e he
  have hb := List.all_eq_true.mp h e he
  cases e <;> simp_all [blandEv, isLaunchE]

/-! ## Facts about the gating scan -/

theorem launchOK_of_not_launch {e : Event} (h : isLaunchE e = false)
    (seen : List Event) : launchOK seen e = true := by
  cases e <;> simp_all [isLaunchE, launchOK]

theorem launchOK_ready {j : Nat} {seen : List Event}
    (h : Event.ready j ∈ seen) (p : Nat) :
    launchOK seen (Event.launch (j + 1) p) = true := by
  simp [launchOK, h]

theorem gatedFrom_append (seen : List Event) (a b : List Event) :
    gatedFrom seen (a ++ b) = (gatedFrom seen a && gatedFrom (seen ++ a) b) := by
  induction a generalizing seen with
  | nil => simp [gatedFrom]
  | cons e a ih =>
    simp only [List.cons_append, gatedFrom, List.append_eq]
    rw [ih (seen ++ [e]), List.append_assoc, List.singleton_append,
        Bool.and_assoc]

theorem gatedFrom_of_noLaunch {l : List Event}
    (h : ∀ e ∈ l, isLaunchE e = false) (seen : List Event) :
    gatedFrom seen l = true := by
  induction l generalizing seen with
  | nil => rfl
  | cons e rest ih =>
    simp only [gatedFrom, Bool.and_eq_true]
    exact ⟨launchOK_of_not_launch (h e (List.mem_cons_self e rest)) seen,
           ih (fun x hx => h x (List.mem_cons_of_mem e hx)) (seen ++ [e])⟩

theorem gatedFrom_of_bland {l : List Event} (h : l.all blandEv = true)
    (seen : List Event) : gatedFrom seen l = true :=
  gatedFrom_of_noLaunch (noLaunch_of_bland h) seen

theorem gatedFrom_singleton (seen : List Event) (e : Event) :
    gatedFrom seen [e] = launchOK seen e := by
  simp [gatedFrom]

/-! ## Facts about `term_loop` -/

theorem sendTERM_subset (w : World) (p : Nat) : sendTERM w p ⊆ w :=
  fun _ hq => (List.mem_filter.mp hq).1

theorem alive_sendTERM_ne {w : World} {p q : Nat} (hne : p ≠ q)
    (h : alive w p = true) : alive (sendTERM w q) p = true := by
  rw [alive, List.any_eq_true] at h ⊢
  obtain ⟨pr, hmem, hpid⟩ := h
  refine ⟨pr, List.mem_filter.mpr ⟨hmem, ?_⟩, hpid⟩
  have hp : pr.pid = p := by simpa using hpid
  simp [hp, hne]

theorem term_loop_subset : ∀ (ps : List Nat) (w : World),
    (term_loop w ps).1 ⊆ w := by
  intro ps
  induction ps with
  | nil => intro w; exact fun q hq => hq
  | cons p rest ih =>
    intro w
    by_cases h : alive w p = true
    · simp only [term_loop, h, if_true]
      exact fun q hq => sendTERM_subset w p (ih (sendTERM w p) hq)
    · simp only [term_loop, h]
      simpa [h] using ih w

theorem term_loop_removes {q : Proc} (hdies : q.diesOnTERM = true) :
    ∀ (ps : List Nat) (w : World), q.pid ∈ ps → q ∉ (term_loop w ps).1 := by
  intro ps
  induction ps with
  | nil => intro w h; cases h
  | cons p rest ih =>
    intro w hmem hq
    by_cases hpq : q.pid = p
    · by_cases ha : alive w p = true
      · simp only [term_loop, ha, if_true] at hq
        have hsub := term_loop_subset rest (sendTERM w p) hq
        have : q ∈ sendTERM w p := hsub
        have := List.mem_filter.mp this
        simp [hpq, hdies] at this
      · have : q ∉ w := by
          intro hw
          apply ha
          rw [alive, List.any_eq_true]
          exact ⟨q, hw, by simp [hpq]⟩
        simp only [term_loop, ha, if_false] at hq
        exact this (term_loop_subset rest w hq)
    · have hrest : q.pid ∈ rest := by
        rcases List.mem_cons.mp hmem with h | h
        · exact absurd h hpq
        · exact h
      by_cases ha : alive w p = true
      · simp only [term_loop, ha, if_true] at hq
        exact ih (sendTERM w p) hrest hq
      · simp only [term_loop, ha, if_false] at hq
        exact ih w hrest hq

theorem term_loop_emits {p : Nat} : ∀ (ps : List Nat) (w : World),
    alive w p = true → p ∈ ps → Event.sigTERM p ∈ (term_loop w ps).2 := by
  intro ps
  induction ps with
  | nil => intro w _ h; cases h
  | cons hd rest ih =>
    intro w halive hmem
    by_cases hph : hd = p
    · subst hph
      simp only [term_loop, halive, if_true]
      exact List.mem_cons_self _ _
    · have hrest : p ∈ rest := by
        rcases List.mem_cons.mp hmem with h | h
        · exact absurd h.symm hph
        · exact h
      by_cases ha : alive w hd = true
      · simp only [term_loop, ha, if_true]
        exact List.mem_cons_of_mem _
          (ih (sendTERM w hd) (alive_sendTERM_ne (fun h => hph h.symm) halive) hrest)
      · simp only [term_loop, ha, if_false]
        exact ih w halive hrest

theorem term_loop_events_cleanupEv : ∀ (ps : List Nat) (w : World),
    ((term_loop w ps).2).all isCleanupEv = true := by
  intro ps
  induction ps with
  | nil => intro w; rfl
  | cons p rest ih =>
    intro w
    by_cases ha : alive w p = true
    · simp only [term_loop, ha, if_true, List.all_cons, Bool.and_eq_true]
      exact ⟨rfl, ih (sendTERM w p)⟩
    · simp only [term_loop, ha, if_false]
      exact ih w

theorem term_loop_removed_event : ∀ (ps : List Nat) (w : World) (q : Proc),
    q ∈ w → q ∉ (term_loop w ps).1 →
    Event.sigTERM q.pid ∈ (term_loop w ps).2 := by
  intro ps
  induction ps with
  | nil => intro w q hw hq; exact absurd hw hq
  | cons p rest ih =>
    intro w q hw hq
    by_cases ha : alive w p = true
    · simp only [term_loop, ha, if_true] at hq ⊢
      by_cases h1 : q ∈ sendTERM w p
      · exact List.mem_cons_of_mem _ (ih (sendTERM w p) q h1 hq)
      · have : ¬(q ∈ w ∧ (!(q.pid == p && q.diesOnTERM)) = true) := by
          intro hc
          exact h1 (List.mem_filter.mpr hc)
        have hcond : (q.pid == p && q.diesOnTERM) = true := by
          by_cases hc : (q.pid == p && q.diesOnTERM) = true
          · exact hc
          · exact absurd ⟨hw, by simp [hc]⟩ this
        have hpid : q.pid = p := by
          simp only [Bool.and_eq_true, beq_iff_eq] at hcond
          exact hcond.1
        rw [hpid]
        exact List.mem_cons_self _ _
    · simp only [term_loop, ha, if_false] at hq ⊢
      exact ih w q hw hq

/-! ## Facts about `kill_port` and `portFree` -/

theorem portFree_iff {w : World} {port : Nat} :
    portFree w port = true ↔ ∀ q ∈ w, q.port ≠ some port := by
  rw [portFree, List.isEmpty_iff, portPids]
  constructor
  · intro h q hq hport
    have : q.pid ∈ (w.filter (fun pr => pr.port == some port)).map
        (fun pr => pr.pid) := List.mem_map.mpr
      ⟨q, List.mem_filter.mpr ⟨hq, by simp [hport]⟩, rfl⟩
    rw [h] at this
    cases this
  · intro h
    rw [List.map_eq_nil_iff, List.filter_eq_nil_iff]
    intro q hq
    simp [h q hq]

theorem kill_port_subset (w : World) (port : Nat) :
    (kill_port w port).1 ⊆ w := by
  rw [kill_port]
  split
  · exact fun q hq => hq
  · exact fun q hq => (List.mem_filter.mp hq).1

theorem kill_port_clears {w : World} {q : Proc} {port : Nat}
    (hq : q ∈ w) (hport : q.port = some port) :
    q ∉ (kill_port w port).1 ∧ Event.sigKILL q.pid ∈ (kill_port w port).2 := by
  have hne : (portPids w port).isEmpty = false := by
    have hp : q.pid ∈ portPids w port := List.mem_map.mpr
      ⟨q, List.mem_filter.mpr ⟨hq, by simp [hport]⟩, rfl⟩
    rcases h : portPids w port with _ | _
    · rw [h] at hp; cases hp
    · rfl
  rw [kill_port]
  simp only [hne, Bool.false_eq_true, if_false]
  constructor
  · intro hmem
    have := (List.mem_filter.mp hmem).2
    simp [hport] at this
  · apply List.mem_append_left
    exact List.mem_map.mpr ⟨q.pid, List.mem_map.mpr
      ⟨q, List.mem_filter.mpr ⟨hq, by simp [hport]⟩, rfl⟩, rfl⟩

theorem kill_port_keeps {w : World} {q : Proc} {port : Nat}
    (hq : q ∈ w) (hne : q.port ≠ some port) : q ∈ (kill_port w port).1 := by
  rw [kill_port]
  split
  · exact hq
  · exact List.mem_filter.mpr ⟨hq, by simp [hne]⟩

theorem kill_port_events_cleanupEv (w : World) (port : Nat) :
    ((kill_port w port).2).all isCleanupEv = true := by
  rw [kill_port]
  split
  · rfl
  · rw [List.all_eq_true]
    intro e he
    rcases List.mem_append.mp he with h | h
    · obtain ⟨p, _, hp⟩ := List.mem_map.mp h
      rw [← hp]; rfl
    · obtain rfl := List.mem_singleton.mp h
      rfl

theorem kill_port_makes_free (w : World) (port : Nat) :
    portFree (kill_port w port).1 port = true := by
  rw [kill_port]
  split
  · next h => exact h
  · rw [portFree_iff]
    intro q hq
    have := (List.mem_filter.mp hq).2
    simpa using this

theorem kill_port_preserves_free {w : World} {p : Nat}
    (h : portFree w p = true) (q : Nat) :
    portFree (kill_port w q).1 p = true := by
  rw [portFree_iff] at h ⊢
  exact fun r hr => h r (kill_port_subset w q hr)

theorem kill_port_of_free {w : World} {p : Nat}
    (h : portFree w p = true) : kill_port w p = (w, []) := by
  rw [kill_port]
  simp only [portFree] at h
  simp [h]

/-! ## Facts about `cleanup_core` -/

theorem cleanup_core_subset (w : World) (f : Option (List Nat)) :
    (cleanup_core w f).1 ⊆ w := by
  rw [cleanup_core.eq_def]
  intro q hq
  cases f with
  | none =>
    exact kill_port_subset _ 8000 (kill_port_subset _ 5000 (kill_port_subset _ 3000 hq))
  | some pids =>
    exact term_loop_subset pids w
      (kill_port_subset _ 8000 (kill_port_subset _ 5000 (kill_port_subset _ 3000 hq)))

theorem cleanup_core_events_cleanupEv (w : World) (f : Option (List Nat)) :
    ((cleanup_core w f).2).all isCleanupEv = true := by
  rw [cleanup_core.eq_def]
  cases f with
  | none =>
    simp only [List.all_append, Bool.and_eq_true]
    exact ⟨⟨⟨rfl, kill_port_events_cleanupEv _ 8000⟩,
      kill_port_events_cleanupEv _ 5000⟩, kill_port_events_cleanupEv _ 3000⟩
  | some pids =>
    simp only [List.all_append, Bool.and_eq_true]
    exact ⟨⟨⟨term_loop_events_cleanupEv pids w, kill_port_events_cleanupEv _ 8000⟩,
      kill_port_events_cleanupEv _ 5000⟩, kill_port_events_cleanupEv _ 3000⟩

theorem cleanup_core_free (w : World) (f : Option (List Nat)) :
    portFree (cleanup_core w f).1 8000 = true ∧
    portFree (cleanup_core w f).1 5000 = true ∧
    portFree (cleanup_core w f).1 3000 = true := by
  rw [cleanup_core.eq_def]
  refine ⟨?_, ?_, ?_⟩
  · exact kill_port_preserves_free (kill_port_preserves_free
      (kill_port_makes_free _ 8000) 5000) 3000
  · exact kill_port_preserves_free (kill_port_makes_free _ 5000) 3000
  · exact kill_port_makes_free _ 3000

theorem cleanup_core_none_of_free {w : World}
    (h8 : portFree w 8000 = true) (h5 : portFree w 5000 = true)
    (h3 : portFree w 3000 = true) : cleanup_core w none = (w, []) := by
  rw [cleanup_core.eq_def]
  simp only [kill_port_of_free h8, kill_port_of_free h5, kill_port_of_free h3]
  simp

/-- Pushing a process with one of the three known ports through the backup
`kill_port` chain: it is removed and a SIGKILL for its pid is emitted by one
of the three calls. -/
theorem kill_chain_clears {w1 : World} {q : Proc}
    (hq1 : q ∈ w1)
    (hp : q.port = some 8000 ∨ q.port = some 5000 ∨ q.port = some 3000) :
    q ∉ (kill_port (kill_port (kill_port w1 8000).1 5000).1 3000).1 ∧
    (Event.sigKILL q.pid ∈ (kill_port w1 8000).2 ∨
     Event.sigKILL q.pid ∈ (kill_port (kill_port w1 8000).1 5000).2 ∨
     Event.sigKILL q.pid ∈ (kill_port (kill_port (kill_port w1 8000).1 5000).1 3000).2) := by
  rcases hp with h | h | h
  · refine ⟨?_, Or.inl (kill_port_clears hq1 h).2⟩
    intro hmem
    exact (kill_port_clears hq1 h).1
      (kill_port_subset _ 5000 (kill_port_subset _ 3000 hmem))
  · have hkeep : q ∈ (kill_port w1 8000).1 := kill_port_keeps hq1 (by simp [h])
    refine ⟨?_, Or.inr (Or.inl (kill_port_clears hkeep h).2)⟩
    intro hmem
    exact (kill_port_clears hkeep h).1 (kill_port_subset _ 3000 hmem)
  · have hkeep : q ∈ (kill_port (kill_port w1 8000).1 5000).1 :=
      kill_port_keeps (kill_port_keeps hq1 (by simp [h])) (by simp [h])
    exact ⟨fun hmem => (kill_port_clears hkeep h).1 hmem,
      Or.inr (Or.inr (kill_port_clears hkeep h).2)⟩

/-- Any process bound to one of the three known ports does not survive a
cleanup execution, and receives a TERM or a KILL signal during it. -/
theorem cleanup_core_clears_ports {w : World} {q : Proc}
    (f : Option (List Nat)) (hq : q ∈ w)
    (hp : q.port = some 8000 ∨ q.port = some 5000 ∨ q.port = some 3000) :
    q ∉ (cleanup_core w f).1 ∧
    (Event.sigTERM q.pid ∈ (cleanup_core w f).2 ∨
     Event.sigKILL q.pid ∈ (cleanup_core w f).2) := by
  cases f with
  | none =>
    obtain ⟨h1, h2⟩ := kill_chain_clears hq hp
    have hw : (cleanup_core w none).1 =
        (kill_port (kill_port (kill_port w 8000).1 5000).1 3000).1 := rfl
    have he : (cleanup_core w none).2 =
        ([] : List Event) ++ (kill_port w 8000).2 ++
        (kill_port (kill_port w 8000).1 5000).2 ++
        (kill_port (kill_port (kill_port w 8000).1 5000).1 3000).2 := rfl
    rw [hw, he]
    refine ⟨h1, Or.inr ?_⟩
    rcases h2 with h | h | h
    · exact List.mem_append_left _ (List.mem_append_left _ (List.mem_append_right _ h))
    · exact List.mem_append_left _ (List.mem_append_right _ h)
    · exact List.mem_append_right _ h
  | some pids =>
    have hw : (cleanup_core w (some pids)).1 =
        (kill_port (kill_port (kill_port (term_loop w pids).1 8000).1 5000).1 3000).1 := rfl
    have he : (cleanup_core w (some pids)).2 =
        (term_loop w pids).2 ++ (kill_port (term_loop w pids).1 8000).2 ++
        (kill_port (kill_port (term_loop w pids).1 8000).1 5000).2 ++
        (kill_port (kill_port (kill_port (term_loop w pids).1 8000).1 5000).1 3000).2 := rfl
    rw [hw, he]
    by_cases hq1 : q ∈ (term_loop w pids).1
    · obtain ⟨h1, h2⟩ := kill_chain_clears hq1 hp
      refine ⟨h1, Or.inr ?_⟩
      rcases h2 with h | h | h
      · exact List.mem_append_left _ (List.mem_append_left _ (List.mem_append_right _ h))
      · exact List.mem_append_left _ (List.mem_append_right _ h)
      · exact List.mem_append_right _ h
    · have ht := term_loop_removed_event pids w q hq hq1
      refine ⟨?_, Or.inl (List.mem_append_left _ (List.mem_append_left _
        (List.mem_append_left _ ht)))⟩
      intro hmem
      exact hq1 (kill_port_subset _ 8000 (kill_port_subset _ 5000
        (kill_port_subset _ 3000 hmem)))

/-- A registered process that dies on SIGTERM does not survive cleanup. -/
theorem cleanup_core_removes {w : World} {q : Proc} {pids : List Nat}
    (hdies : q.diesOnTERM = true) (hpid : q.pid ∈ pids) :
    q ∉ (cleanup_core w (some pids)).1 := by
  rw [cleanup_core.eq_def]
  intro hmem
  simp only at hmem
  exact term_loop_removes hdies pids w hpid
    (kill_port_subset _ 8000 (kill_port_subset _ 5000 (kill_port_subset _ 3000 hmem)))

/-- Every registered pid that is alive when cleanup starts receives a
SIGTERM. -/
theorem cleanup_core_emits_TERM {w : World} {p : Nat} {pids : List Nat}
    (halive : alive w p = true) (hpid : p ∈ pids) :
    Event.sigTERM p ∈ (cleanup_core w (some pids)).2 := by
  rw [cleanup_core.eq_def]
  simp only
  exact List.mem_append_left _ (List.mem_append_left _
    (List.mem_append_left _ (term_loop_emits pids w halive hpid)))

/-! ## Facts about `cleanup_run`, `scriptExit`, `scriptEnd`, `signal_shutdown` -/

theorem cleanup_run_fields (st : St) :
    (cleanup_run st).world = (cleanup_core st.world st.pidFile).1 ∧
    (cleanup_run st).pidFile = none ∧
    (cleanup_run st).exitCode = st.exitCode ∧
    (cleanup_run st).atCleanup = st.atCleanup ∧
    (cleanup_run st).events = st.events ++ Event.cleanupStart ::
      (cleanup_core st.world st.pidFile).2 :=
  ⟨rfl, rfl, rfl, rfl, rfl⟩

theorem scriptExit_fields (code : Nat) (st : St) :
    (scriptExit code st).world = (cleanup_core st.world st.pidFile).1 ∧
    (scriptExit code st).pidFile = none ∧
    (scriptExit code st).exitCode = some 0 ∧
    (scriptExit code st).atCleanup = some st.pidFile ∧
    (scriptExit code st).events = st.events ++ Event.abort code ::
      Event.cleanupStart :: (cleanup_core st.world st.pidFile).2 := by
  refine ⟨rfl, rfl, rfl, rfl, ?_⟩
  show (st.events ++ [Event.abort code]) ++ Event.cleanupStart ::
      (cleanup_core st.world st.pidFile).2 = _
  rw [List.append_assoc]
  rfl

theorem scriptEnd_fields (st : St) :
    (scriptEnd st).world = (cleanup_core st.world st.pidFile).1 ∧
    (scriptEnd st).pidFile = none ∧
    (scriptEnd st).exitCode = some 0 ∧
    (scriptEnd st).atCleanup = some st.pidFile ∧
    (scriptEnd st).events = st.events ++ Event.cleanupStart ::
      (cleanup_core st.world st.pidFile).2 :=
  ⟨rfl, rfl, rfl, rfl, rfl⟩

/-- A second execution of the cleanup body right after a first one changes
nothing: the registry file is gone and the three ports are already free, so
the only effect is the log line. -/
theorem cleanup_run_idem (st : St) :
    cleanup_run (cleanup_run st) =
      { cleanup_run st with
          events := (cleanup_run st).events ++ [Event.cleanupStart] } := by
  obtain ⟨h8, h5, h3⟩ := cleanup_core_free st.world st.pidFile
  show ({ cleanup_run st with
      world := (cleanup_core (cleanup_run st).world (cleanup_run st).pidFile).1,
      pidFile := none,
      events := (cleanup_run st).events ++ Event.cleanupStart ::
        (cleanup_core (cleanup_run st).world (cleanup_run st).pidFile).2 } : St) = _
  have hw : (cleanup_run st).world = (cleanup_core st.world st.pidFile).1 := rfl
  have hf : (cleanup_run st).pidFile = none := rfl
  rw [hw, hf, cleanup_core_none_of_free h8 h5 h3]
  rfl

theorem signal_shutdown_events (st : St) :
    (signal_shutdown st).events = (cleanup_run { st with
      atCleanup := some st.pidFile }).events ++ [Event.cleanupStart] ∧
    (signal_shutdown st).exitCode = some 0 := by
  constructor
  · show (cleanup_run (cleanup_run { st with atCleanup := some st.pidFile })).events = _
    rw [cleanup_run_idem]
  · rfl

/-! ## Facts about `wait_for_service` -/

/-- If the probe never succeeds, the poller issues one probe per remaining
attempt, 2 seconds apart, and reports failure. -/
theorem wfs_never {probe : Nat → Bool} (h : ∀ a, probe a = false) :
    ∀ (fuel attempt time : Nat),
    wfs_from probe fuel attempt time =
      ((List.range fuel).map (fun j => time + 2 * j), false) := by
  intro fuel
  induction fuel with
  | zero => intro attempt time; rfl
  | succ n ih =>
    intro attempt time
    rw [wfs_from, h attempt]
    simp only [Bool.false_eq_true, if_false, ih (attempt + 1) (time + 2)]
    rw [List.range_succ_eq_map]
    simp only [List.map_cons, List.map_map, Nat.mul_zero, Nat.add_zero]
    refine congrArg (fun l => (time :: l, false)) ?_
    apply List.map_congr_left
    intro j _
    simp only [Function.comp_apply]
    omega

/-- On a probe that never succeeds, `wait_for_service` makes exactly 30
attempts at times 0, 2, 4, ..., 58 and fails. -/
theorem wait_for_service_never {probe : Nat → Bool} (h : ∀ a, probe a = false) :
    wait_for_service probe =
      ((List.range 30).map (fun j => 2 * j), false) := by
  rw [wait_for_service, max_attempts, wfs_never h]
  simp

/-! ## More trace helpers -/

theorem probe_events_noLaunch (j : Nat) (ts : List Nat) :
    ∀ e ∈ probe_events j ts, isLaunchE e = false := by
  intro e he
  obtain ⟨t, _, rfl⟩ := List.mem_map.mp he
  rfl

theorem noLaunch_cons {e : Event} {l : List Event} (he : isLaunchE e = false)
    (hl : ∀ x ∈ l, isLaunchE x = false) : ∀ x ∈ e :: l, isLaunchE x = false := by
  intro x hx
  rcases List.mem_cons.mp hx with rfl | h
  · exact he
  · exact hl x h

theorem noLaunch_append {a b : List Event} (ha : ∀ x ∈ a, isLaunchE x = false)
    (hb : ∀ x ∈ b, isLaunchE x = false) :
    ∀ x ∈ a ++ b, isLaunchE x = false := by
  intro x hx
  rcases List.mem_append.mp hx with h | h
  · exact ha x h
  · exact hb x h

/-! ## Structure of the monitor loop -/

theorem run_monitor_go_spec (ticks : List (Nat → Bool)) (st : St) :
    ∃ d, (run_monitor_go ticks st).events = st.events ++ d ∧
      d.all blandEv = true ∧
      (((run_monitor_go ticks st).exitCode = st.exitCode ∧
        (run_monitor_go ticks st).pidFile = st.pidFile ∧
        (run_monitor_go ticks st).atCleanup = st.atCleanup) ∨
       ((run_monitor_go ticks st).exitCode = some 0 ∧
        (run_monitor_go ticks st).pidFile = none ∧
        (run_monitor_go ticks st).atCleanup = some st.pidFile ∧
        Event.cleanupStart ∈ (run_monitor_go ticks st).events)) := by
  induction ticks generalizing st with
  | nil =>
    exact ⟨[], by simp [run_monitor_go], rfl, Or.inl ⟨rfl, rfl, rfl⟩⟩
  | cons tick rest ih =>
    by_cases h0 : tick 0 = false
    · rw [run_monitor_go, if_pos h0]
      obtain ⟨hw, hf, hx, hac, hev⟩ := scriptEnd_fields
        { st with events := st.events ++ [Event.portCheck 0 false, Event.errorMsg 0] }
      refine ⟨[Event.portCheck 0 false, Event.errorMsg 0] ++ Event.cleanupStart ::
        (cleanup_core st.world st.pidFile).2, ?_, ?_, Or.inr ⟨hx, hf, hac, ?_⟩⟩
      · rw [hev]; simp
      · simp only [List.all_append, List.all_cons, Bool.and_eq_true]
        exact ⟨by decide, rfl, all_bland_of_all_cleanupEv
          (cleanup_core_events_cleanupEv st.world st.pidFile)⟩
      · rw [hev]
        exact List.mem_append_right _ (List.mem_cons_self _ _)
    · rw [run_monitor_go, if_neg h0]
      by_cases h1 : tick 1 = false
      · rw [if_pos h1]
        obtain ⟨hw, hf, hx, hac, hev⟩ := scriptEnd_fields
          { st with events := st.events ++
            [Event.portCheck 0 true, Event.portCheck 1 false, Event.errorMsg 1] }
        refine ⟨[Event.portCheck 0 true, Event.portCheck 1 false, Event.errorMsg 1] ++
          Event.cleanupStart :: (cleanup_core st.world st.pidFile).2,
          ?_, ?_, Or.inr ⟨hx, hf, hac, ?_⟩⟩
        · rw [hev]; simp
        · simp only [List.all_append, List.all_cons, Bool.and_eq_true]
          exact ⟨by decide, rfl, all_bland_of_all_cleanupEv
            (cleanup_core_events_cleanupEv st.world st.pidFile)⟩
        · rw [hev]
          exact List.mem_append_right _ (List.mem_cons_self _ _)
      · rw [if_neg h1]
        by_cases h2 : tick 2 = false
        · rw [if_pos h2]
          obtain ⟨hw, hf, hx, hac, hev⟩ := scriptEnd_fields
            { st with events := st.events ++
              [Event.portCheck 0 true, Event.portCheck 1 true,
               Event.portCheck 2 false, Event.errorMsg 2] }
          refine ⟨[Event.portCheck 0 true, Event.portCheck 1 true,
            Event.portCheck 2 false, Event.errorMsg 2] ++
            Event.cleanupStart :: (cleanup_core st.world st.pidFile).2,
            ?_, ?_, Or.inr ⟨hx, hf, hac, ?_⟩⟩
          · rw [hev]; simp
          · simp only [List.all_append, List.all_cons, Bool.and_eq_true]
            exact ⟨by decide, rfl, all_bland_of_all_cleanupEv
              (cleanup_core_events_cleanupEv st.world st.pidFile)⟩
          · rw [hev]
            exact List.mem_append_right _ (List.mem_cons_self _ _)
        · rw [if_neg h2]
          obtain ⟨d, hev, hbl, hdisj⟩ := ih { st with events := st.events ++
            [Event.portCheck 0 true, Event.portCheck 1 true,
             Event.portCheck 2 true, Event.sleep 10] }
          refine ⟨[Event.portCheck 0 true, Event.portCheck 1 true,
            Event.portCheck 2 true, Event.sleep 10] ++ d, ?_, ?_, ?_⟩
          · rw [hev]; simp
          · simp only [List.all_append, Bool.and_eq_true]
            exact ⟨by decide, hbl⟩
          · exact hdisj

/-! ## Structure of the pre-flight port checks -/

theorem preflight_one_spec (port : Nat) (st : St) :
    ∃ d, (preflight_one port st).events = st.events ++ d ∧
      d.all blandEv = true ∧
      (preflight_one port st).pidFile = st.pidFile ∧
      (preflight_one port st).exitCode = st.exitCode ∧
      (preflight_one port st).atCleanup = st.atCleanup := by
  rw [preflight_one]
  split
  · exact ⟨(kill_port st.world port).2, rfl,
      all_bland_of_all_cleanupEv (kill_port_events_cleanupEv st.world port),
      rfl, rfl, rfl⟩
  · exact ⟨[], by simp, rfl, rfl, rfl, rfl⟩

theorem preflight_spec (st : St) :
    ∃ d, (preflight st).events = st.events ++ d ∧
      d.all blandEv = true ∧
      (preflight st).pidFile = st.pidFile ∧
      (preflight st).exitCode = st.exitCode ∧
      (preflight st).atCleanup = st.atCleanup := by
  obtain ⟨d1, he1, hb1, hf1, hx1, ha1⟩ := preflight_one_spec 8000 st
  obtain ⟨d2, he2, hb2, hf2, hx2, ha2⟩ := preflight_one_spec 5000 (preflight_one 8000 st)
  obtain ⟨d3, he3, hb3, hf3, hx3, ha3⟩ :=
    preflight_one_spec 3000 (preflight_one 5000 (preflight_one 8000 st))
  refine ⟨d1 ++ d2 ++ d3, ?_, ?_, ?_, ?_, ?_⟩
  · rw [preflight, he3, he2, he1]; simp [List.append_assoc]
  · simp only [List.all_append, Bool.and_eq_true]
    exact ⟨⟨hb1, hb2⟩, hb3⟩
  · rw [preflight, hf3, hf2, hf1]
  · rw [preflight, hx3, hx2, hx1]
  · rw [preflight, ha3, ha2, ha1]

/-! ## Readiness gating through the launch stages -/

theorem gated_extend {base d : List Event}
    (hb : gatedFrom [] base = true) (hd : gatedFrom base d = true) :
    gatedFrom [] (base ++ d) = true := by
  rw [gatedFrom_append, List.nil_append, hb, hd]
  rfl

theorem gatedFrom_cleanup_tail (code : Nat) (w : World) (f : Option (List Nat))
    (seen : List Event) :
    gatedFrom seen (Event.abort code :: Event.cleanupStart ::
      (cleanup_core w f).2) = true :=
  gatedFrom_of_noLaunch
    (noLaunch_cons (show isLaunchE (Event.abort code) = false from rfl)
      (noLaunch_cons (show isLaunchE Event.cleanupStart = false from rfl)
        (noLaunch_of_bland (all_bland_of_all_cleanupEv
          (cleanup_core_events_cleanupEv w f))))) seen

theorem scriptExit_gated (code : Nat) (st : St)
    (h : gatedFrom [] st.events = true) :
    gatedFrom [] (scriptExit code st).events = true := by
  obtain ⟨hw, hf, hx, hac, hev⟩ := scriptExit_fields code st
  rw [hev]
  exact gated_extend h (gatedFrom_cleanup_tail code st.world st.pidFile st.events)

theorem monitor_gated (env : Env) (st : St)
    (h : gatedFrom [] st.events = true) :
    gatedFrom [] (run_monitor env st).events = true := by
  obtain ⟨d, hev, hbl, _⟩ := run_monitor_go_spec env.monitorTicks st
  rw [run_monitor, hev]
  exact gated_extend h (gatedFrom_of_bland hbl st.events)

theorem stage2_gated (env : Env) (st : St)
    (hst : gatedFrom [] st.events = true)
    (hready : Event.ready 1 ∈ st.events) :
    gatedFrom [] (run_stage2 env st).events = true := by
  have h1 : gatedFrom [] (st.events ++ [Event.launch 2 (env.svcPid 2)]) = true := by
    refine gated_extend hst ?_
    rw [gatedFrom_singleton]
    simp [launchOK, hready]
  simp only [run_stage2, run_stage]
  split
  · apply monitor_gated
    show gatedFrom [] (((st.events ++ [Event.launch 2 (env.svcPid 2)]) ++
      probe_events 2 (wait_for_service (env.probe 2)).1) ++ [Event.ready 2]) = true
    refine gated_extend (gated_extend h1
      (gatedFrom_of_noLaunch (probe_events_noLaunch 2 _) _)) ?_
    rw [gatedFrom_singleton]
    rfl
  · apply scriptExit_gated
    show gatedFrom [] (((st.events ++ [Event.launch 2 (env.svcPid 2)]) ++
      probe_events 2 (wait_for_service (env.probe 2)).1) ++ [Event.errorMsg 2]) = true
    refine gated_extend (gated_extend h1
      (gatedFrom_of_noLaunch (probe_events_noLaunch 2 _) _)) ?_
    rw [gatedFrom_singleton]
    rfl

theorem stage1_gated (env : Env) (st : St)
    (hst : gatedFrom [] st.events = true)
    (hready : Event.ready 0 ∈ st.events) :
    gatedFrom [] (run_stage1 env st).events = true := by
  have h1 : gatedFrom [] (st.events ++ [Event.launch 1 (env.svcPid 1)]) = true := by
    refine gated_extend hst ?_
    rw [gatedFrom_singleton]
    simp [launchOK, hready]
  simp only [run_stage1, run_stage]
  split
  · apply stage2_gated
    · show gatedFrom [] (((st.events ++ [Event.launch 1 (env.svcPid 1)]) ++
        probe_events 1 (wait_for_service (env.probe 1)).1) ++ [Event.ready 1]) = true
      refine gated_extend (gated_extend h1
        (gatedFrom_of_noLaunch (probe_events_noLaunch 1 _) _)) ?_
      rw [gatedFrom_singleton]
      rfl
    · show Event.ready 1 ∈ ((st.events ++ [Event.launch 1 (env.svcPid 1)]) ++
        probe_events 1 (wait_for_service (env.probe 1)).1) ++ [Event.ready 1]
      exact List.mem_append_right _ (List.mem_singleton.mpr rfl)
  · apply scriptExit_gated
    show gatedFrom [] (((st.events ++ [Event.launch 1 (env.svcPid 1)]) ++
      probe_events 1 (wait_for_service (env.probe 1)).1) ++ [Event.errorMsg 1]) = true
    refine gated_extend (gated_extend h1
      (gatedFrom_of_noLaunch (probe_events_noLaunch 1 _) _)) ?_
    rw [gatedFrom_singleton]
    rfl

theorem stage0_gated (env : Env) (st : St)
    (hst : gatedFrom [] st.events = true) :
    gatedFrom [] (run_stage0 env st).events = true := by
  have h1 : gatedFrom [] (st.events ++ [Event.launch 0 (env.svcPid 0)]) = true := by
    refine gated_extend hst ?_
    rw [gatedFrom_singleton]
    rfl
  simp only [run_stage0, run_stage]
  split
  · apply stage1_gated
    · show gatedFrom [] (((st.events ++ [Event.launch 0 (env.svcPid 0)]) ++
        probe_events 0 (wait_for_service (env.probe 0)).1) ++ [Event.ready 0]) = true
      refine gated_extend (gated_extend h1
        (gatedFrom_of_noLaunch (probe_events_noLaunch 0 _) _)) ?_
      rw [gatedFrom_singleton]
      rfl
    · show Event.ready 0 ∈ ((st.events ++ [Event.launch 0 (env.svcPid 0)]) ++
        probe_events 0 (wait_for_service (env.probe 0)).1) ++ [Event.ready 0]
      exact List.mem_append_right _ (List.mem_singleton.mpr rfl)
  · apply scriptExit_gated
    show gatedFrom [] (((st.events ++ [Event.launch 0 (env.svcPid 0)]) ++
      probe_events 0 (wait_for_service (env.probe 0)).1) ++ [Event.errorMsg 0]) = true
    refine gated_extend (gated_extend h1
      (gatedFrom_of_noLaunch (probe_events_noLaunch 0 _) _)) ?_
    rw [gatedFrom_singleton]
    rfl

/-! ## Exit status through the launch stages -/

theorem scriptExit_exit_spec (code : Nat) (st : St) :
    (scriptExit code st).exitCode = some 0 ∧
    Event.cleanupStart ∈ (scriptExit code st).events := by
  obtain ⟨_, _, hx, _, hev⟩ := scriptExit_fields code st
  refine ⟨hx, ?_⟩
  rw [hev]
  exact List.mem_append_right _ (List.mem_cons_of_mem _ (List.mem_cons_self _ _))

theorem monitor_exit_spec (env : Env) (st : St) (hx : st.exitCode = none) :
    (run_monitor env st).exitCode = none ∨
    ((run_monitor env st).exitCode = some 0 ∧
     Event.cleanupStart ∈ (run_monitor env st).events) := by
  obtain ⟨d, hev, hbl, hdisj⟩ := run_monitor_go_spec env.monitorTicks st
  rcases hdisj with ⟨h1, _, _⟩ | ⟨h1, _, _, h4⟩
  · left
    rw [run_monitor, h1, hx]
  · right
    exact ⟨h1, h4⟩

theorem stage2_exit_spec (env : Env) (st : St) (hx : st.exitCode = none) :
    (run_stage2 env st).exitCode = none ∨
    ((run_stage2 env st).exitCode = some 0 ∧
     Event.cleanupStart ∈ (run_stage2 env st).events) := by
  simp only [run_stage2, run_stage]
  split
  · exact monitor_exit_spec env _ hx
  · exact Or.inr (scriptExit_exit_spec 1 _)

theorem stage1_exit_spec (env : Env) (st : St) (hx : st.exitCode = none) :
    (run_stage1 env st).exitCode = none ∨
    ((run_stage1 env st).exitCode = some 0 ∧
     Event.cleanupStart ∈ (run_stage1 env st).events) := by
  simp only [run_stage1, run_stage]
  split
  · exact stage2_exit_spec env _ hx
  · exact Or.inr (scriptExit_exit_spec 1 _)

theorem stage0_exit_spec (env : Env) (st : St) (hx : st.exitCode = none) :
    (run_stage0 env st).exitCode = none ∨
    ((run_stage0 env st).exitCode = some 0 ∧
     Event.cleanupStart ∈ (run_stage0 env st).events) := by
  simp only [run_stage0, run_stage]
  split
  · exact stage1_exit_spec env _ hx
  · exact Or.inr (scriptExit_exit_spec 1 _)

/-- The final exit status of any complete run of `start_all.sh` is 0 (the
`exit 0` at the end of the trap-registered `cleanup` overrides every
`exit 1` in the script body), and any terminated run has executed
cleanup. -/
theorem run_exit_spec (env : Env) :
    (run_start_all env).exitCode = none ∨
    ((run_start_all env).exitCode = some 0 ∧
     Event.cleanupStart ∈ (run_start_all env).events) := by
  rw [run_start_all]
  split
  · exact Or.inr (scriptExit_exit_spec 1 _)
  · rw [run_deps_and_services]
    split
    · exact Or.inr (scriptExit_exit_spec 1 _)
    · split
      · exact Or.inr (scriptExit_exit_spec 1 _)
      · apply stage0_exit_spec
        obtain ⟨d, he, hb, hf, hx, ha⟩ := preflight_spec
          { world := (initSt env).world, pidFile := none,
            events := (initSt env).events ++ [Event.rmPidFile],
            exitCode := (initSt env).exitCode, atCleanup := (initSt env).atCleanup }
        exact hx.trans rfl

/-! ## Registry-file bookkeeping through the launch stages -/

theorem launchPids_cons_bland {e : Event} {l : List Event}
    (he : isLaunchE e = false) : launchPids (e :: l) = launchPids l := by
  cases e <;> simp_all [launchPids, List.filterMap_cons, isLaunchE]

theorem scriptExit_reg_spec (code : Nat) (st : St)
    (hreg : st.pidFile.getD [] = launchPids st.events) :
    (scriptExit code st).pidFile = none ∧
    (scriptExit code st).exitCode = some 0 ∧
    ∃ f, (scriptExit code st).atCleanup = some f ∧
      f.getD [] = launchPids (scriptExit code st).events := by
  obtain ⟨hw, hf, hx, hac, hev⟩ := scriptExit_fields code st
  refine ⟨hf, hx, st.pidFile, hac, ?_⟩
  rw [hev, launchPids_append,
      launchPids_cons_bland (show isLaunchE (Event.abort code) = false from rfl),
      launchPids_cons_bland (show isLaunchE Event.cleanupStart = false from rfl),
      launchPids_nil_of_bland (all_bland_of_all_cleanupEv
        (cleanup_core_events_cleanupEv st.world st.pidFile)),
      List.append_nil, hreg]

theorem monitor_reg_spec (env : Env) (st : St) (hx : st.exitCode = none)
    (hac : st.atCleanup = none)
    (hreg : st.pidFile.getD [] = launchPids st.events) :
    ((run_monitor env st).exitCode = none ∧
     (run_monitor env st).atCleanup = none ∧
     (run_monitor env st).pidFile.getD [] =
       launchPids (run_monitor env st).events) ∨
    ((run_monitor env st).pidFile = none ∧
     (run_monitor env st).exitCode = some 0 ∧
     ∃ f, (run_monitor env st).atCleanup = some f ∧
       f.getD [] = launchPids (run_monitor env st).events) := by
  obtain ⟨d, hev, hbl, hdisj⟩ := run_monitor_go_spec env.monitorTicks st
  have hlp : launchPids (run_monitor env st).events = launchPids st.events := by
    rw [run_monitor, hev, launchPids_append, launchPids_nil_of_bland hbl,
        List.append_nil]
  rcases hdisj with ⟨h1, h2, h3⟩ | ⟨h1, h2, h3, _⟩
  · left
    refine ⟨?_, ?_, ?_⟩
    · rw [run_monitor, h1, hx]
    · rw [run_monitor, h3, hac]
    · rw [run_monitor] at hlp ⊢
      rw [h2, hlp, hreg]
  · right
    refine ⟨?_, ?_, st.pidFile, ?_, ?_⟩
    · rw [run_monitor, h2]
    · rw [run_monitor, h1]
    · rw [run_monitor, h3]
    · rw [hlp, hreg]

theorem stage2_reg_spec (env : Env) (st : St) (hx : st.exitCode = none)
    (hac : st.atCleanup = none)
    (hreg : st.pidFile.getD [] = launchPids st.events) :
    ((run_stage2 env st).exitCode = none ∧
     (run_stage2 env st).atCleanup = none ∧
     (run_stage2 env st).pidFile.getD [] =
       launchPids (run_stage2 env st).events) ∨
    ((run_stage2 env st).pidFile = none ∧
     (run_stage2 env st).exitCode = some 0 ∧
     ∃ f, (run_stage2 env st).atCleanup = some f ∧
       f.getD [] = launchPids (run_stage2 env st).events) := by
  have hreg1 : st.pidFile.getD [] ++ [env.svcPid 2] =
      launchPids ((st.events ++ [Event.launch 2 (env.svcPid 2)]) ++
        probe_events 2 (wait_for_service (env.probe 2)).1) := by
    rw [launchPids_append, launchPids_append, hreg,
        launchPids_probe_events, List.append_nil]
    rfl
  simp only [run_stage2, run_stage]
  split
  · apply monitor_reg_spec
    · exact hx
    · exact hac
    · show (some (st.pidFile.getD [] ++ [env.svcPid 2])).getD [] =
        launchPids (((st.events ++ [Event.launch 2 (env.svcPid 2)]) ++
          probe_events 2 (wait_for_service (env.probe 2)).1) ++ [Event.ready 2])
      rw [launchPids_append,
          show launchPids [Event.ready 2] = [] from rfl, List.append_nil]
      exact hreg1
  · refine Or.inr (scriptExit_reg_spec 1 _ ?_)
    show (some (st.pidFile.getD [] ++ [env.svcPid 2])).getD [] =
      launchPids (((st.events ++ [Event.launch 2 (env.svcPid 2)]) ++
        probe_events 2 (wait_for_service (env.probe 2)).1) ++ [Event.errorMsg 2])
    rw [launchPids_append,
        show launchPids [Event.errorMsg 2] = [] from rfl, List.append_nil]
    exact hreg1

theorem stage1_reg_spec (env : Env) (st : St) (hx : st.exitCode = none)
    (hac : st.atCleanup = none)
    (hreg : st.pidFile.getD [] = launchPids st.events) :
    ((run_stage1 env st).exitCode = none ∧
     (run_stage1 env st).atCleanup = none ∧
     (run_stage1 env st).pidFile.getD [] =
       launchPids (run_stage1 env st).events) ∨
    ((run_stage1 env st).pidFile = none ∧
     (run_stage1 env st).exitCode = some 0 ∧
     ∃ f, (run_stage1 env st).atCleanup = some f ∧
       f.getD [] = launchPids (run_stage1 env st).events) := by
  have hreg1 : st.pidFile.getD [] ++ [env.svcPid 1] =
      launchPids ((st.events ++ [Event.launch 1 (env.svcPid 1)]) ++
        probe_events 1 (wait_for_service (env.probe 1)).1) := by
    rw [launchPids_append, launchPids_append, hreg,
        launchPids_probe_events, List.append_nil]
    rfl
  simp only [run_stage1, run_stage]
  split
  · apply stage2_reg_spec
    · exact hx
    · exact hac
    · show (some (st.pidFile.getD [] ++ [env.svcPid 1])).getD [] =
        launchPids (((st.events ++ [Event.launch 1 (env.svcPid 1)]) ++
          probe_events 1 (wait_for_service (env.probe 1)).1) ++ [Event.ready 1])
      rw [launchPids_append,
          show launchPids [Event.ready 1] = [] from rfl, List.append_nil]
      exact hreg1
  · refine Or.inr (scriptExit_reg_spec 1 _ ?_)
    show (some (st.pidFile.getD [] ++ [env.svcPid 1])).getD [] =
      launchPids (((st.events ++ [Event.launch 1 (env.svcPid 1)]) ++
        probe_events 1 (wait_for_service (env.probe 1)).1) ++ [Event.errorMsg 1])
    rw [launchPids_append,
        show launchPids [Event.errorMsg 1] = [] from rfl, List.append_nil]
    exact hreg1

theorem stage0_reg_spec (env : Env) (st : St) (hx : st.exitCode = none)
    (hac : st.atCleanup = none)
    (hreg : st.pidFile.getD [] = launchPids st.events) :
    ((run_stage0 env st).exitCode = none ∧
     (run_stage0 env st).atCleanup = none ∧
     (run_stage0 env st).pidFile.getD [] =
       launchPids (run_stage0 env st).events) ∨
    ((run_stage0 env st).pidFile = none ∧
     (run_stage0 env st).exitCode = some 0 ∧
     ∃ f, (run_stage0 env st).atCleanup = some f ∧
       f.getD [] = launchPids (run_stage0 env st).events) := by
  have hreg1 : st.pidFile.getD [] ++ [env.svcPid 0] =
      launchPids ((st.events ++ [Event.launch 0 (env.svcPid 0)]) ++
        probe_events 0 (wait_for_service (env.probe 0)).1) := by
    rw [launchPids_append, launchPids_append, hreg,
        launchPids_probe_events, List.append_nil]
    rfl
  simp only [run_stage0, run_stage]
  split
  · apply stage1_reg_spec
    · exact hx
    · exact hac
    · show (some (st.pidFile.getD [] ++ [env.svcPid 0])).getD [] =
        launchPids (((st.events ++ [Event.launch 0 (env.svcPid 0)]) ++
          probe_events 0 (wait_for_service (env.probe 0)).1) ++ [Event.ready 0])
      rw [launchPids_append,
          show launchPids [Event.ready 0] = [] from rfl, List.append_nil]
      exact hreg1
  · refine Or.inr (scriptExit_reg_spec 1 _ ?_)
    show (some (st.pidFile.getD [] ++ [env.svcPid 0])).getD [] =
      launchPids (((st.events ++ [Event.launch 0 (env.svcPid 0)]) ++
        probe_events 0 (wait_for_service (env.probe 0)).1) ++ [Event.errorMsg 0])
    rw [launchPids_append,
        show launchPids [Event.errorMsg 0] = [] from rfl, List.append_nil]
    exact hreg1

/-! ## Stage reductions and further helpers -/

/-- When the readiness probe of stage `i` eventually succeeds, the stage
hands the post-`Ready` state to its continuation. -/
theorem stage_ok_spec (env : Env) (i : Nat) (next : St → St) (st : St)
    (hok : (wait_for_service (env.probe i)).2 = true) :
    run_stage env i next st = next { launch_service env i st with
      events := (launch_service env i st).events ++
        probe_events i (wait_for_service (env.probe i)).1 ++ [Event.ready i] } := by
  simp only [run_stage, hok, if_true]

/-- When the readiness probe of stage `i` never succeeds, the stage probes
30 times at 2-second spacing and executes `exit 1`. -/
theorem stage_fail_red (env : Env) (i : Nat) (next : St → St) (st : St)
    (hfail : ∀ a, env.probe i a = false) :
    run_stage env i next st = scriptExit 1 { launch_service env i st with
      events := (launch_service env i st).events ++
        probe_events i ((List.range 30).map (fun j => 2 * j)) ++
        [Event.errorMsg i] } := by
  simp only [run_stage, wait_for_service_never hfail]
  simp

theorem count_cleanup_tail (x : Event) (w : World) (f : Option (List Nat))
    (hx : isCleanupEv x = false) :
    (Event.cleanupStart :: (cleanup_core w f).2).count x = 0 := by
  have h0 : ((cleanup_core w f).2).count x = 0 :=
    count_eq_zero_of_all (cleanup_core_events_cleanupEv w f) hx
  have hne : x ≠ Event.cleanupStart := by
    intro h
    rw [h] at hx
    cases hx
  simp [List.count_cons, h0, hne]

theorem not_mem_cleanup_tail {x : Event} (w : World) (f : Option (List Nat))
    (hx : isCleanupEv x = false) :
    x ∉ Event.cleanupStart :: (cleanup_core w f).2 := by
  intro hmem
  rcases List.mem_cons.mp hmem with h | h
  · rw [h] at hx
    cases hx
  · exact all_not_mem (cleanup_core_events_cleanupEv w f) hx h

theorem term_loop_events_TERM : ∀ (ps : List Nat) (w : World),
    ∀ e ∈ (term_loop w ps).2, ∃ p, p ∈ ps ∧ e = Event.sigTERM p := by
  intro ps
  induction ps with
  | nil => intro w e he; cases he
  | cons p rest ih =>
    intro w e he
    by_cases ha : alive w p = true
    · simp only [term_loop, ha, if_true] at he
      rcases List.mem_cons.mp he with h | h
      · exact ⟨p, List.mem_cons_self p rest, h⟩
      · obtain ⟨p1, hp1, he1⟩ := ih (sendTERM w p) e h
        exact ⟨p1, List.mem_cons_of_mem p hp1, he1⟩
    · simp only [term_loop, ha, if_false] at he
      obtain ⟨p1, hp1, he1⟩ := ih w e he
      exact ⟨p1, List.mem_cons_of_mem p hp1, he1⟩

theorem bland_cleanup_tail (c : Nat) (w : World) (f : Option (List Nat)) :
    (Event.abort c :: Event.cleanupStart :: (cleanup_core w f).2).all blandEv = true := by
  simp only [List.all_cons, Bool.and_eq_true]
  exact ⟨rfl, rfl, all_bland_of_all_cleanupEv (cleanup_core_events_cleanupEv w f)⟩

/-- The trace of one failing stage, decomposed. -/
theorem stage_fail_core (env : Env) (i : Nat) (st : St) (next : St → St)
    (hfail : ∀ a, env.probe i a = false)
    (hpt : probeTimes i st.events = []) :
    probeTimes i (run_stage env i next st).events =
      (List.range 30).map (fun j => 2 * j) ∧
    Event.abort 1 ∈ (run_stage env i next st).events ∧
    Event.cleanupStart ∈ (run_stage env i next st).events ∧
    (∀ p, p ∈ st.pidFile.getD [] ++ [env.svcPid i] →
      alive (svcProc env i :: st.world) p = true →
      Event.sigTERM p ∈ (run_stage env i next st).events) ∧
    (∀ q : Proc, q.diesOnTERM = true →
      q.pid ∈ st.pidFile.getD [] ++ [env.svcPid i] →
      q ∉ (run_stage env i next st).world) := by
  rw [stage_fail_red env i next st hfail]
  have hle : (launch_service env i st).events =
      st.events ++ [Event.launch i (env.svcPid i)] := rfl
  have hlf : (launch_service env i st).pidFile =
      some (st.pidFile.getD [] ++ [env.svcPid i]) := rfl
  have hlw : (launch_service env i st).world = svcProc env i :: st.world := rfl
  obtain ⟨hw, hf, hx, hac, hev⟩ := scriptExit_fields 1
    { launch_service env i st with
      events := (launch_service env i st).events ++
        probe_events i ((List.range 30).map (fun j => 2 * j)) ++
        [Event.errorMsg i] }
  refine ⟨?_, ?_, ?_, ?_, ?_⟩
  · rw [hev]
    show probeTimes i ((((launch_service env i st).events ++
      probe_events i ((List.range 30).map (fun j => 2 * j))) ++ [Event.errorMsg i]) ++
      (Event.abort 1 :: Event.cleanupStart :: _)) = _
    rw [probeTimes_append, probeTimes_append, probeTimes_append, hle,
        probeTimes_append, hpt, probeTimes_probe_events_self,
        probeTimes_nil_of_bland (bland_cleanup_tail 1 _ _) i,
        show probeTimes i [Event.launch i (env.svcPid i)] = [] from rfl,
        show probeTimes i [Event.errorMsg i] = [] from rfl]
    simp
  · rw [hev]
    exact List.mem_append_right _ (List.mem_cons_self _ _)
  · rw [hev]
    exact List.mem_append_right _ (List.mem_cons_of_mem _ (List.mem_cons_self _ _))
  · intro p hp halive
    rw [hev]
    refine List.mem_append_right _ (List.mem_cons_of_mem _ (List.mem_cons_of_mem _ ?_))
    show Event.sigTERM p ∈ (cleanup_core (launch_service env i st).world
      (launch_service env i st).pidFile).2
    rw [hlf, hlw]
    exact cleanup_core_emits_TERM halive hp
  · intro q hdies hq
    rw [hw]
    show q ∉ (cleanup_core (launch_service env i st).world
      (launch_service env i st).pidFile).1
    rw [hlf]
    exact cleanup_core_removes hdies hq

/-! ## Events of every phase extend the previous trace -/

theorem scriptExit_events_ext (code : Nat) (st : St) :
    ∃ d, (scriptExit code st).events = st.events ++ d :=
  ⟨_, (scriptExit_fields code st).2.2.2.2⟩

theorem run_monitor_events_ext (env : Env) (st : St) :
    ∃ d, (run_monitor env st).events = st.events ++ d := by
  obtain ⟨d, hd, _⟩ := run_monitor_go_spec env.monitorTicks st
  exact ⟨d, hd⟩

theorem run_stage2_events_ext (env : Env) (st : St) :
    ∃ d, (run_stage2 env st).events = st.events ++ d := by
  simp only [run_stage2, run_stage]
  split
  · obtain ⟨d, hd⟩ := run_monitor_events_ext env
      { launch_service env 2 st with
        events := (launch_service env 2 st).events ++
          probe_events 2 (wait_for_service (env.probe 2)).1 ++ [Event.ready 2] }
    refine ⟨[Event.launch 2 (env.svcPid 2)] ++
      probe_events 2 (wait_for_service (env.probe 2)).1 ++ [Event.ready 2] ++ d, ?_⟩
    rw [hd]
    show ((st.events ++ [Event.launch 2 (env.svcPid 2)]) ++
      probe_events 2 (wait_for_service (env.probe 2)).1 ++ [Event.ready 2]) ++ d = _
    simp [List.append_assoc]
  · obtain ⟨d, hd⟩ := scriptExit_events_ext 1
      { launch_service env 2 st with
        events := (launch_service env 2 st).events ++
          probe_events 2 (wait_for_service (env.probe 2)).1 ++ [Event.errorMsg 2] }
    refine ⟨[Event.launch 2 (env.svcPid 2)] ++
      probe_events 2 (wait_for_service (env.probe 2)).1 ++ [Event.errorMsg 2] ++ d, ?_⟩
    rw [hd]
    show ((st.events ++ [Event.launch 2 (env.svcPid 2)]) ++
      probe_events 2 (wait_for_service (env.probe 2)).1 ++ [Event.errorMsg 2]) ++ d = _
    simp [List.append_assoc]

theorem run_stage1_events_ext (env : Env) (st : St) :
    ∃ d, (run_stage1 env st).events = st.events ++ d := by
  simp only [run_stage1, run_stage]
  split
  · obtain ⟨d, hd⟩ := run_stage2_events_ext env
      { launch_service env 1 st with
        events := (launch_service env 1 st).events ++
          probe_events 1 (wait_for_service (env.probe 1)).1 ++ [Event.ready 1] }
    refine ⟨[Event.launch 1 (env.svcPid 1)] ++
      probe_events 1 (wait_for_service (env.probe 1)).1 ++ [Event.ready 1] ++ d, ?_⟩
    rw [hd]
    show ((st.events ++ [Event.launch 1 (env.svcPid 1)]) ++
      probe_events 1 (wait_for_service (env.probe 1)).1 ++ [Event.ready 1]) ++ d = _
    simp [List.append_assoc]
  · obtain ⟨d, hd⟩ := scriptExit_events_ext 1
      { launch_service env 1 st with
        events := (launch_service env 1 st).events ++
          probe_events 1 (wait_for_service (env.probe 1)).1 ++ [Event.errorMsg 1] }
    refine ⟨[Event.launch 1 (env.svcPid 1)] ++
      probe_events 1 (wait_for_service (env.probe 1)).1 ++ [Event.errorMsg 1] ++ d, ?_⟩
    rw [hd]
    show ((st.events ++ [Event.launch 1 (env.svcPid 1)]) ++
      probe_events 1 (wait_for_service (env.probe 1)).1 ++ [Event.errorMsg 1]) ++ d = _
    simp [List.append_assoc]

theorem run_stage0_events_ext (env : Env) (st : St) :
    ∃ d, (run_stage0 env st).events = st.events ++ d := by
  simp only [run_stage0, run_stage]
  split
  · obtain ⟨d, hd⟩ := run_stage1_events_ext env
      { launch_service env 0 st with
        events := (launch_service env 0 st).events ++
          probe_events 0 (wait_for_service (env.probe 0)).1 ++ [Event.ready 0] }
    refine ⟨[Event.launch 0 (env.svcPid 0)] ++
      probe_events 0 (wait_for_service (env.probe 0)).1 ++ [Event.ready 0] ++ d, ?_⟩
    rw [hd]
    show ((st.events ++ [Event.launch 0 (env.svcPid 0)]) ++
      probe_events 0 (wait_for_service (env.probe 0)).1 ++ [Event.ready 0]) ++ d = _
    simp [List.append_assoc]
  · obtain ⟨d, hd⟩ := scriptExit_events_ext 1
      { launch_service env 0 st with
        events := (launch_service env 0 st).events ++
          probe_events 0 (wait_for_service (env.probe 0)).1 ++ [Event.errorMsg 0] }
    refine ⟨[Event.launch 0 (env.svcPid 0)] ++
      probe_events 0 (wait_for_service (env.probe 0)).1 ++ [Event.errorMsg 0] ++ d, ?_⟩
    rw [hd]
    show ((st.events ++ [Event.launch 0 (env.svcPid 0)]) ++
      probe_events 0 (wait_for_service (env.probe 0)).1 ++ [Event.errorMsg 0]) ++ d = _
    simp [List.append_assoc]

/-! ## Claim theorems -/

/-- Claim C3, counterexample: one interrupt signal delivered to a run with
one registered service triggers TWO complete executions of `cleanup`, not
exactly one — the signal-trap execution ends in `exit 0`, which fires the
still-installed EXIT trap and runs `cleanup` again.  So the coordinator is
not run-to-completion-exactly-once per shutdown trigger. -/
theorem claim3_counterexample :
    (signal_shutdown stSignal).events.count Event.cleanupStart = 2 ∧
    ¬((signal_shutdown stSignal).events.count Event.cleanupStart = 1) := by
  decide

/-- Claim C3, amended: on a shutdown trigger `cleanup` runs to completion
twice, not once, but it is idempotent: the second execution finds the
registry file removed and all three service ports free, so beyond its log
line it changes nothing (same process set, file still absent), and the
final status is 0.  Redundant triggering is therefore harmless even though
the coordinator is not literally non-reentrant. -/
theorem claim3_amended (st : St) :
    cleanup_run (cleanup_run st) =
      { cleanup_run st with
          events := (cleanup_run st).events ++ [Event.cleanupStart] } ∧
    (signal_shutdown st).world =
      (cleanup_run { st with atCleanup := some st.pidFile }).world ∧
    (signal_shutdown st).pidFile = none ∧
    (signal_shutdown st).exitCode = some 0 := by
  refine ⟨cleanup_run_idem st, ?_, ?_, ?_⟩
  · rw [signal_shutdown, cleanup_run_idem]
  · rw [signal_shutdown, cleanup_run_idem]
    rfl
  · rw [signal_shutdown]

/-- Claim C5, counterexample: with a single process (pid 100) bound to port
8000, `kill_port 8000` sends SIGKILL immediately — the emitted signal
sequence is `[KILL 100, sleep 2]` and contains no graceful SIGTERM, so the
occupant is never sent a graceful terminate signal first. -/
theorem claim5_counterexample :
    (kill_port wOccupied 8000).2 = [Event.sigKILL 100, Event.sleep 2] ∧
    Event.sigTERM 100 ∉ (kill_port wOccupied 8000).2 := by
  decide

/-- Claim C5, amended: the Port Reservation Check terminates the occupant
of a port by sending a forced kill (SIGKILL, `kill -9`) immediately and
then sleeping 2 seconds; it never sends a graceful terminate signal and
there is no grace period.  Afterwards the port is free. -/
theorem claim5_amended (w : World) (port : Nat) :
    (∀ e ∈ (kill_port w port).2,
      (∃ p, e = Event.sigKILL p) ∨ e = Event.sleep 2) ∧
    (∀ p, Event.sigTERM p ∉ (kill_port w port).2) ∧
    portFree (kill_port w port).1 port = true := by
  have hshape : ∀ e ∈ (kill_port w port).2,
      (∃ p, e = Event.sigKILL p) ∨ e = Event.sleep 2 := by
    intro e he
    by_cases hc : portFree w port = true
    · rw [kill_port_of_free hc] at he
      cases he
    · have hred : (kill_port w port).2 =
          (portPids w port).map Event.sigKILL ++ [Event.sleep 2] := by
        rw [kill_port]
        have hc2 : (portPids w port).isEmpty = false := by
          rcases h : (portPids w port).isEmpty with _ | _
          · rfl
          · exact absurd h hc
        simp [hc2]
      rw [hred] at he
      rcases List.mem_append.mp he with h | h
      · obtain ⟨p, _, hp⟩ := List.mem_map.mp h
        exact Or.inl ⟨p, hp.symm⟩
      · exact Or.inr (List.mem_singleton.mp h)
  refine ⟨hshape, ?_, kill_port_makes_free w port⟩
  intro p hp
  rcases hshape _ hp with ⟨q, hq⟩ | hq
  · cases hq
  · cases hq

/-- Claim C5, witness: the amended statement evaluated at the concrete
occupied world. -/
theorem claim5_witness :
    (∀ e ∈ (kill_port wOccupied 8000).2,
      (∃ p, e = Event.sigKILL p) ∨ e = Event.sleep 2) ∧
    (∀ p, Event.sigTERM p ∉ (kill_port wOccupied 8000).2) ∧
    portFree (kill_port wOccupied 8000).1 8000 = true :=
  claim5_amended wOccupied 8000

/-- Claim C6, counterexample: a registered process (pid 77) that ignores
SIGTERM and holds no port survives `cleanup` untouched: it receives the
graceful SIGTERM, stays alive, and is never force-killed — there is no
grace-period wait and no aliveness re-check before escalation, contrary to
the claim that a still-alive process is force-killed after the grace
period. -/
theorem claim6_counterexample :
    (cleanup_run stStubborn).world =
      [{ pid := 77, port := none, diesOnTERM := false }] ∧
    Event.sigTERM 77 ∈ (cleanup_run stStubborn).events ∧
    Event.sigKILL 77 ∉ (cleanup_run stStubborn).events := by
  decide

/-- Claim C6, amended: on a shutdown trigger the coordinator sends exactly
one graceful SIGTERM to each registered pid that is alive (the registry
loop emits only SIGTERMs of registered pids and never escalates to SIGKILL
regardless of whether the process stays alive); the only force-kill path is
the port backstop, which removes whatever process still occupies one of the
three known service ports. -/
theorem claim6_amended (w : World) (ps : List Nat) (st : St) :
    (∀ e ∈ (term_loop w ps).2, ∃ p, p ∈ ps ∧ e = Event.sigTERM p) ∧
    (∀ p ∈ ps, alive w p = true → Event.sigTERM p ∈ (term_loop w ps).2) ∧
    (∀ q ∈ st.world,
      (q.port = some 8000 ∨ q.port = some 5000 ∨ q.port = some 3000) →
      q ∉ (cleanup_run st).world) := by
  refine ⟨term_loop_events_TERM ps w, fun p hp ha => term_loop_emits ps w ha hp, ?_⟩
  intro q hq hports
  rw [(cleanup_run_fields st).1]
  exact (cleanup_core_clears_ports st.pidFile hq hports).1

/-- Claim C6, witness: the amended statement applied to a one-service
registry whose process is alive. -/
theorem claim6_witness :
    Event.sigTERM 5 ∈ (term_loop [⟨5, none, true⟩] [5]).2 :=
  (claim6_amended [⟨5, none, true⟩] [5] stSignal).2.1 5 (by decide) (by decide)

/-- Claim C7, counterexample: a probe target that always answers HTTP 500
— a non-success status — is declared ready at the very first attempt:
`curl -s` without `--fail` exits 0 on any completed HTTP response, so the
poller does not keep waiting on non-success statuses. -/
theorem claim7_counterexample :
    curl_s_exit (ProbeOutcome.httpResponse 500) = true ∧
    wait_for_service (probeOfOutcomes (fun _ => ProbeOutcome.httpResponse 500)) =
      ([0], true) := by
  exact ⟨rfl, rfl⟩

/-- Claim C7, amended: a probe attempt counts as ready exactly when the
HTTP request completes with any response status whatsoever; only a
connection failure is treated as not ready, in which case the poller keeps
waiting (and gives up after its 30 attempts). -/
theorem claim7_amended :
    (∀ o : ProbeOutcome,
      curl_s_exit o = true ↔ ∃ s, o = ProbeOutcome.httpResponse s) ∧
    wait_for_service (probeOfOutcomes (fun _ => ProbeOutcome.connFail)) =
      ((List.range 30).map (fun j => 2 * j), false) := by
  constructor
  · intro o
    cases o with
    | connFail => simp [curl_s_exit]
    | httpResponse s => simp [curl_s_exit]
  · exact wait_for_service_never (fun a => rfl)

/-- Claim C7, witness: a 404 response is accepted as ready. -/
theorem claim7_witness : curl_s_exit (ProbeOutcome.httpResponse 404) = true :=
  (claim7_amended.1 (ProbeOutcome.httpResponse 404)).mpr ⟨404, rfl⟩

/-- Claim C1, counterexample: `quick_start.sh` — one of the supervisor
scripts the claim covers — launches service 1 (and service 2) immediately
after service 0 with no readiness probing at all: its launch trace violates
the readiness gate (service 1 is launched although service 0 was never seen
`Ready` and the sequence never aborted). -/
theorem claim1_counterexample :
    gatedLaunches (quick_start_events 101 102 103) = false ∧
    Event.launch 1 102 ∈ quick_start_events 101 102 103 ∧
    Event.ready 0 ∉ quick_start_events 101 102 103 ∧
    (∀ e ∈ quick_start_events 101 102 103, isAbortE e = false) := by
  decide

/-- Claim C1, amended: the sequential readiness gate holds for
`start_all.sh`: in every run, any launch of service `i+1` is preceded in
the trace by `Ready` of service `i` (or by an abort); `quick_start.sh`
however launches all three services unconditionally, so the gate holds only
for `start_all.sh`. -/
theorem claim1_amended (env : Env) :
    gatedLaunches (run_start_all env).events = true := by
  rw [gatedLaunches, run_start_all]
  split
  · apply scriptExit_gated
    rfl
  · rw [run_deps_and_services]
    have hpre : gatedFrom [] (preflight
        { world := (initSt env).world, pidFile := none,
          events := (initSt env).events ++ [Event.rmPidFile],
          exitCode := (initSt env).exitCode,
          atCleanup := (initSt env).atCleanup }).events = true := by
      obtain ⟨d, he, hb, _, _, _⟩ := preflight_spec
        { world := (initSt env).world, pidFile := none,
          events := (initSt env).events ++ [Event.rmPidFile],
          exitCode := (initSt env).exitCode, atCleanup := (initSt env).atCleanup }
      rw [he]
      refine gated_extend ?_ (gatedFrom_of_bland hb _)
      rfl
    split
    · exact scriptExit_gated 1 _ hpre
    · split
      · exact scriptExit_gated 1 _ hpre
      · exact stage0_gated env _ hpre

/-- Claim C4, counterexample: with service 0's readiness probe never
succeeding, the script takes the readiness-timeout path — it prints the
error and executes `exit 1` — yet the observable exit status of the run is
0, because the EXIT-trap `cleanup` finishes with `exit 0`.  Calling
automation cannot branch on the cause: the claimed distinct non-zero code
for readiness-timeout failure does not exist. -/
theorem claim4_counterexample :
    Event.errorMsg 0 ∈ (run_start_all envExitProbe).events ∧
    Event.abort 1 ∈ (run_start_all envExitProbe).events ∧
    (run_start_all envExitProbe).exitCode = some 0 := by
  decide

/-- Claim C4, amended: the supervisor's process exit code is 0 on every
termination path — clean shutdown, pre-flight failure, readiness-timeout
failure and monitor-detected failure alike — because the trap-registered
`cleanup` ends with `exit 0`, overriding every `exit 1` in the body.  A
signal-triggered shutdown also ends with status 0.  No distinct non-zero
codes are observable. -/
theorem claim4_amended (env : Env) (st : St) :
    ((run_start_all env).exitCode = none ∨
     (run_start_all env).exitCode = some 0) ∧
    (signal_shutdown st).exitCode = some 0 := by
  constructor
  · rcases run_exit_spec env with h | ⟨h, _⟩
    · exact Or.inl h
    · exact Or.inr h
  · rw [signal_shutdown]

/-- Claim C9: from the moment the trap is installed, every termination of
`start_all.sh` has final status 0 and has executed `cleanup`; in
particular, a run aborted by the directory pre-flight check (before any
service was launched) still runs `cleanup`, which kills whatever process is
listening on ports 8000, 5000 or 3000 — including processes the script
never started — and the script still exits 0. -/
theorem claim9_trap_cleanup (env : Env) :
    (∀ c, (run_start_all env).exitCode = some c →
      c = 0 ∧ Event.cleanupStart ∈ (run_start_all env).events) ∧
    (env.inProjectRoot = false →
      (run_start_all env).exitCode = some 0 ∧
      ∀ q ∈ env.preexisting,
        (q.port = some 8000 ∨ q.port = some 5000 ∨ q.port = some 3000) →
        q ∉ (run_start_all env).world ∧
        (Event.sigTERM q.pid ∈ (run_start_all env).events ∨
         Event.sigKILL q.pid ∈ (run_start_all env).events)) := by
  constructor
  · intro c hc
    rcases run_exit_spec env with h | ⟨h, hm⟩
    · rw [h] at hc
      cases hc
    · rw [h] at hc
      injection hc with h0
      exact ⟨h0.symm, hm⟩
  · intro hdir
    have hrun : run_start_all env = scriptExit 1 (initSt env) := by
      rw [run_start_all, if_pos hdir]
    obtain ⟨hw, hf, hx, hac, hev⟩ := scriptExit_fields 1 (initSt env)
    rw [hrun]
    refine ⟨hx, ?_⟩
    intro q hq hp
    obtain ⟨h1, h2⟩ := cleanup_core_clears_ports (initSt env).pidFile
      (show q ∈ (initSt env).world from hq) hp
    constructor
    · rw [hw]
      exact h1
    · rw [hev]
      rcases h2 with h | h
      · exact Or.inl (List.mem_append_right _
          (List.mem_cons_of_mem _ (List.mem_cons_of_mem _ h)))
      · exact Or.inr (List.mem_append_right _
          (List.mem_cons_of_mem _ (List.mem_cons_of_mem _ h)))

/-- Claim C9, witness: the wrong-directory run with a foreign process on
port 8000 exits 0 and the foreign process is gone (it was signalled). -/
theorem claim9_witness :
    envWrongDir.inProjectRoot = false ∧
    (run_start_all envWrongDir).exitCode = some 0 ∧
    ({ pid := 55, port := some 8000, diesOnTERM := false } : Proc) ∉
      (run_start_all envWrongDir).world ∧
    (Event.sigTERM 55 ∈ (run_start_all envWrongDir).events ∨
     Event.sigKILL 55 ∈ (run_start_all envWrongDir).events) := by
  have h := (claim9_trap_cleanup envWrongDir).2 rfl
  have h2 := h.2 { pid := 55, port := some 8000, diesOnTERM := false }
    (by decide) (Or.inl rfl)
  exact ⟨rfl, h.1, h2.1, h2.2⟩

/-- Claim C8: once all services are Ready, the monitor re-checks the three
service ports each round and sleeps 10 seconds between healthy rounds;
on the first round in which a service's port is seen free (service `j`
being the first down in check order), it emits that service's error message
and stops: exactly one more round is entered after the healthy ones,
whatever observations would follow, no restart of any service is ever
attempted, and the script terminates (through cleanup) with status 0. -/
theorem claim8_monitor (st : St) (good : List (Nat → Bool)) (bad : Nat → Bool)
    (rest : List (Nat → Bool)) (j : Nat)
    (hgood : ∀ t ∈ good, t 0 = true ∧ t 1 = true ∧ t 2 = true)
    (hj : j ≤ 2) (hbad : bad j = false)
    (hfirst : ∀ k, k < j → bad k = true) :
    (run_monitor_go (good ++ bad :: rest) st).exitCode = some 0 ∧
    Event.errorMsg j ∈ (run_monitor_go (good ++ bad :: rest) st).events ∧
    (run_monitor_go (good ++ bad :: rest) st).events.count (Event.sleep 10) =
      st.events.count (Event.sleep 10) + good.length ∧
    (run_monitor_go (good ++ bad :: rest) st).events.count (Event.portCheck 0 true) +
      (run_monitor_go (good ++ bad :: rest) st).events.count (Event.portCheck 0 false) =
      st.events.count (Event.portCheck 0 true) +
      st.events.count (Event.portCheck 0 false) + good.length + 1 ∧
    (∀ k, Event.restartSvc k ∈ (run_monitor_go (good ++ bad :: rest) st).events →
      Event.restartSvc k ∈ st.events) := by
  revert hgood
  induction good generalizing st with
  | nil =>
    intro hgood
    rw [List.nil_append]
    interval_cases j
    · rw [run_monitor_go, if_pos hbad]
      obtain ⟨hw, hf, hx, hac, hev⟩ := scriptEnd_fields
        { st with events := st.events ++ [Event.portCheck 0 false, Event.errorMsg 0] }
      have hev2 : (scriptEnd { st with events := st.events ++
          [Event.portCheck 0 false, Event.errorMsg 0] }).events =
          (st.events ++ [Event.portCheck 0 false, Event.errorMsg 0]) ++
          Event.cleanupStart :: (cleanup_core st.world st.pidFile).2 := hev
      have hc1 := count_cleanup_tail (Event.sleep 10) st.world st.pidFile rfl
      have hc2 := count_cleanup_tail (Event.portCheck 0 true) st.world st.pidFile rfl
      have hc3 := count_cleanup_tail (Event.portCheck 0 false) st.world st.pidFile rfl
      refine ⟨hx, ?_, ?_, ?_, ?_⟩
      · rw [hev2]
        exact List.mem_append_left _ (List.mem_append_right _ (by simp))
      · rw [hev2, List.count_append, List.count_append, hc1]
        simp [List.count_cons]
      · rw [hev2, List.count_append, List.count_append, List.count_append,
            List.count_append, hc2, hc3]
        simp [List.count_cons]
        try omega
      · intro k hk
        rw [hev2] at hk
        rcases List.mem_append.mp hk with h | h
        · rcases List.mem_append.mp h with h1 | h1
          · exact h1
          · simp at h1
        · exact absurd h (not_mem_cleanup_tail st.world st.pidFile rfl)
    · have hb0 : bad 0 = true := hfirst 0 (by omega)
      rw [run_monitor_go, if_neg (by simp [hb0]), if_pos hbad]
      obtain ⟨hw, hf, hx, hac, hev⟩ := scriptEnd_fields
        { st with events := st.events ++
          [Event.portCheck 0 true, Event.portCheck 1 false, Event.errorMsg 1] }
      have hev2 : (scriptEnd { st with events := st.events ++
          [Event.portCheck 0 true, Event.portCheck 1 false, Event.errorMsg 1] }).events =
          (st.events ++ [Event.portCheck 0 true, Event.portCheck 1 false,
            Event.errorMsg 1]) ++
          Event.cleanupStart :: (cleanup_core st.world st.pidFile).2 := hev
      have hc1 := count_cleanup_tail (Event.sleep 10) st.world st.pidFile rfl
      have hc2 := count_cleanup_tail (Event.portCheck 0 true) st.world st.pidFile rfl
      have hc3 := count_cleanup_tail (Event.portCheck 0 false) st.world st.pidFile rfl
      refine ⟨hx, ?_, ?_, ?_, ?_⟩
      · rw [hev2]
        exact List.mem_append_left _ (List.mem_append_right _ (by simp))
      · rw [hev2, List.count_append, List.count_append, hc1]
        simp [List.count_cons]
      · rw [hev2, List.count_append, List.count_append, List.count_append,
            List.count_append, hc2, hc3]
        simp [List.count_cons]
        try omega
      · intro k hk
        rw [hev2] at hk
        rcases List.mem_append.mp hk with h | h
        · rcases List.mem_append.mp h with h1 | h1
          · exact h1
          · simp at h1
        · exact absurd h (not_mem_cleanup_tail st.world st.pidFile rfl)
    · have hb0 : bad 0 = true := hfirst 0 (by omega)
      have hb1 : bad 1 = true := hfirst 1 (by omega)
      rw [run_monitor_go, if_neg (by simp [hb0]), if_neg (by simp [hb1]),
          if_pos hbad]
      obtain ⟨hw, hf, hx, hac, hev⟩ := scriptEnd_fields
        { st with events := st.events ++
          [Event.portCheck 0 true, Event.portCheck 1 true,
           Event.portCheck 2 false, Event.errorMsg 2] }
      have hev2 : (scriptEnd { st with events := st.events ++
          [Event.portCheck 0 true, Event.portCheck 1 true,
           Event.portCheck 2 false, Event.errorMsg 2] }).events =
          (st.events ++ [Event.portCheck 0 true, Event.portCheck 1 true,
            Event.portCheck 2 false, Event.errorMsg 2]) ++
          Event.cleanupStart :: (cleanup_core st.world st.pidFile).2 := hev
      have hc1 := count_cleanup_tail (Event.sleep 10) st.world st.pidFile rfl
      have hc2 := count_cleanup_tail (Event.portCheck 0 true) st.world st.pidFile rfl
      have hc3 := count_cleanup_tail (Event.portCheck 0 false) st.world st.pidFile rfl
      refine ⟨hx, ?_, ?_, ?_, ?_⟩
      · rw [hev2]
        exact List.mem_append_left _ (List.mem_append_right _ (by simp))
      · rw [hev2, List.count_append, List.count_append, hc1]
        simp [List.count_cons]
      · rw [hev2, List.count_append, List.count_append, List.count_append,
            List.count_append, hc2, hc3]
        simp [List.count_cons]
        try omega
      · intro k hk
        rw [hev2] at hk
        rcases List.mem_append.mp hk with h | h
        · rcases List.mem_append.mp h with h1 | h1
          · exact h1
          · simp at h1
        · exact absurd h (not_mem_cleanup_tail st.world st.pidFile rfl)
  | cons t good ih =>
    intro hgood
    have ht := hgood t (List.mem_cons_self t good)
    rw [List.cons_append, run_monitor_go,
        if_neg (by simp [ht.1]), if_neg (by simp [ht.2.1]),
        if_neg (by simp [ht.2.2])]
    have ihs := ih { st with events := st.events ++
        [Event.portCheck 0 true, Event.portCheck 1 true,
         Event.portCheck 2 true, Event.sleep 10] }
      (fun t1 ht1 => hgood t1 (List.mem_cons_of_mem t ht1))
    have hse : ({ st with events := st.events ++
        [Event.portCheck 0 true, Event.portCheck 1 true,
         Event.portCheck 2 true, Event.sleep 10] } : St).events =
        st.events ++ [Event.portCheck 0 true, Event.portCheck 1 true,
          Event.portCheck 2 true, Event.sleep 10] := rfl
    obtain ⟨i1, i2, i3, i4, i5⟩ := ihs
    rw [hse, List.count_append] at i3
    rw [hse, List.count_append, List.count_append] at i4
    refine ⟨i1, i2, ?_, ?_, ?_⟩
    · rw [i3]
      simp [List.count_cons]
      omega
    · rw [i4]
      simp [List.count_cons]
      omega
    · intro k hk
      have hk2 := i5 k hk
      rw [hse] at hk2
      rcases List.mem_append.mp hk2 with h | h
      · exact h
      · simp at h

/-- Claim C8, witness: one healthy round, then service 0's port is seen
free in the second round. -/
theorem claim8_witness :
    (run_monitor_go (([fun _ => true] ++ (fun _ => false) :: []) : List (Nat → Bool)) stMonitor).exitCode =
      some 0 ∧
    Event.errorMsg 0 ∈
      (run_monitor_go (([fun _ => true] ++ (fun _ => false) :: []) : List (Nat → Bool)) stMonitor).events ∧
    (run_monitor_go (([fun _ => true] ++ (fun _ => false) :: []) : List (Nat → Bool))
      stMonitor).events.count (Event.sleep 10) =
      stMonitor.events.count (Event.sleep 10) + ([fun _ => true] : List (Nat → Bool)).length ∧
    (run_monitor_go (([fun _ => true] ++ (fun _ => false) :: []) : List (Nat → Bool))
      stMonitor).events.count (Event.portCheck 0 true) +
    (run_monitor_go (([fun _ => true] ++ (fun _ => false) :: []) : List (Nat → Bool))
      stMonitor).events.count (Event.portCheck 0 false) =
      stMonitor.events.count (Event.portCheck 0 true) +
      stMonitor.events.count (Event.portCheck 0 false) +
      ([fun _ => true] : List (Nat → Bool)).length + 1 ∧
    (∀ k, Event.restartSvc k ∈
      (run_monitor_go (([fun _ => true] ++ (fun _ => false) :: []) : List (Nat → Bool)) stMonitor).events →
      Event.restartSvc k ∈ stMonitor.events) :=
  claim8_monitor stMonitor [fun _ => true] (fun _ => false) [] 0
    (by
      intro t ht
      rw [List.mem_singleton.mp ht]
      exact ⟨rfl, rfl, rfl⟩)
    (by omega) rfl (fun k hk => absurd hk (Nat.not_lt_zero k))

/-- Readiness-timeout rollback, stated from an arbitrary pre-launch state:
if every probe of service `i` fails while the earlier services came up, the
run makes exactly 30 probes of service `i` at times 0, 2, ..., 58, executes
`exit 1`, runs cleanup, sends SIGTERM to every launched service, and no
launched service process (all of which die on SIGTERM) survives. -/
theorem claim2_core (env : Env) (i : Nat) (base : St)
    (hpt : ∀ k, probeTimes k base.events = [])
    (hi : i ≤ 2)
    (hprev : ∀ j, j < i → (wait_for_service (env.probe j)).2 = true)
    (hfail : ∀ a, env.probe i a = false)
    (hdies : ∀ j, env.svcDiesOnTERM j = true) :
    probeTimes i (run_stage0 env base).events =
      (List.range 30).map (fun j => 2 * j) ∧
    Event.abort 1 ∈ (run_stage0 env base).events ∧
    Event.cleanupStart ∈ (run_stage0 env base).events ∧
    (∀ j, j ≤ i →
      Event.sigTERM (env.svcPid j) ∈ (run_stage0 env base).events ∧
      svcProc env j ∉ (run_stage0 env base).world) := by
  interval_cases i
  · obtain ⟨c1, c2, c3, c4, c5⟩ :=
      stage_fail_core env 0 base (run_stage1 env) hfail (hpt 0)
    rw [run_stage0]
    refine ⟨c1, c2, c3, ?_⟩
    intro j hj
    have hj0 : j = 0 := by omega
    subst hj0
    constructor
    · apply c4
      · exact List.mem_append_right _ (List.mem_singleton.mpr rfl)
      · simp [alive, svcProc]
    · apply c5
      · exact hdies 0
      · exact List.mem_append_right _ (List.mem_singleton.mpr rfl)
  · have hok0 := hprev 0 (by omega)
    have hpt1 : probeTimes 1 (((base.events ++ [Event.launch 0 (env.svcPid 0)]) ++
        probe_events 0 (wait_for_service (env.probe 0)).1) ++ [Event.ready 0]) = [] := by
      rw [probeTimes_append, probeTimes_append, probeTimes_append, hpt 1,
          probeTimes_probe_events_ne (by omega : (0 : Nat) ≠ 1),
          show probeTimes 1 [Event.launch 0 (env.svcPid 0)] = [] from rfl,
          show probeTimes 1 [Event.ready 0] = [] from rfl]
      rfl
    obtain ⟨c1, c2, c3, c4, c5⟩ :=
      stage_fail_core env 1
        { launch_service env 0 base with
          events := (launch_service env 0 base).events ++
            probe_events 0 (wait_for_service (env.probe 0)).1 ++ [Event.ready 0] }
        (run_stage2 env) hfail hpt1
    rw [run_stage0, stage_ok_spec env 0 (run_stage1 env) base hok0, run_stage1]
    refine ⟨c1, c2, c3, ?_⟩
    intro j hj
    interval_cases j
    · constructor
      · apply c4
        · exact List.mem_append_left _
            (List.mem_append_right _ (List.mem_singleton.mpr rfl))
        · simp [alive, svcProc, launch_service]
      · apply c5
        · exact hdies 0
        · exact List.mem_append_left _
            (List.mem_append_right _ (List.mem_singleton.mpr rfl))
    · constructor
      · apply c4
        · exact List.mem_append_right _ (List.mem_singleton.mpr rfl)
        · simp [alive, svcProc]
      · apply c5
        · exact hdies 1
        · exact List.mem_append_right _ (List.mem_singleton.mpr rfl)
  · have hok0 := hprev 0 (by omega)
    have hok1 := hprev 1 (by omega)
    have hpt2 : probeTimes 2 (((((base.events ++ [Event.launch 0 (env.svcPid 0)]) ++
        probe_events 0 (wait_for_service (env.probe 0)).1) ++ [Event.ready 0]) ++
        [Event.launch 1 (env.svcPid 1)] ++
        probe_events 1 (wait_for_service (env.probe 1)).1) ++ [Event.ready 1]) = [] := by
      rw [probeTimes_append, probeTimes_append, probeTimes_append,
          probeTimes_append, probeTimes_append, probeTimes_append, hpt 2,
          probeTimes_probe_events_ne (by omega : (0 : Nat) ≠ 2),
          probeTimes_probe_events_ne (by omega : (1 : Nat) ≠ 2),
          show probeTimes 2 [Event.launch 0 (env.svcPid 0)] = [] from rfl,
          show probeTimes 2 [Event.ready 0] = [] from rfl,
          show probeTimes 2 [Event.launch 1 (env.svcPid 1)] = [] from rfl,
          show probeTimes 2 [Event.ready 1] = [] from rfl]
      rfl
    obtain ⟨c1, c2, c3, c4, c5⟩ :=
      stage_fail_core env 2
        { launch_service env 1
            { launch_service env 0 base with
              events := (launch_service env 0 base).events ++
                probe_events 0 (wait_for_service (env.probe 0)).1 ++
                [Event.ready 0] } with
          events := (launch_service env 1
            { launch_service env 0 base with
              events := (launch_service env 0 base).events ++
                probe_events 0 (wait_for_service (env.probe 0)).1 ++
                [Event.ready 0] }).events ++
            probe_events 1 (wait_for_service (env.probe 1)).1 ++ [Event.ready 1] }
        (run_monitor env) hfail hpt2
    rw [run_stage0, stage_ok_spec env 0 (run_stage1 env) base hok0, run_stage1,
        stage_ok_spec env 1 (run_stage2 env)
          { launch_service env 0 base with
            events := (launch_service env 0 base).events ++
              probe_events 0 (wait_for_service (env.probe 0)).1 ++
              [Event.ready 0] } hok1, run_stage2]
    refine ⟨c1, c2, c3, ?_⟩
    intro j hj
    interval_cases j
    · constructor
      · apply c4
        · exact List.mem_append_left _ (List.mem_append_left _
            (List.mem_append_right _ (List.mem_singleton.mpr rfl)))
        · simp [alive, svcProc, launch_service]
      · apply c5
        · exact hdies 0
        · exact List.mem_append_left _ (List.mem_append_left _
            (List.mem_append_right _ (List.mem_singleton.mpr rfl)))
    · constructor
      · apply c4
        · exact List.mem_append_left _
            (List.mem_append_right _ (List.mem_singleton.mpr rfl))
        · simp [alive, svcProc, launch_service]
      · apply c5
        · exact hdies 1
        · exact List.mem_append_left _
            (List.mem_append_right _ (List.mem_singleton.mpr rfl))
    · constructor
      · apply c4
        · exact List.mem_append_right _ (List.mem_singleton.mpr rfl)
        · simp [alive, svcProc]
      · apply c5
        · exact hdies 2
        · exact List.mem_append_right _ (List.mem_singleton.mpr rfl)

/-- Claim C2: for any service whose readiness probe never succeeds (the
earlier ones having come up), the poller probes it exactly 30 times at a
fixed 2-second interval (times 0, 2, ..., 58), then the supervisor aborts
(`exit 1`), the Shutdown Coordinator runs and sends SIGTERM to every
already-started service, and — the launched service processes dying on
SIGTERM as ordinary processes do — none of them survives: zero running
services remain, never a partial stack. -/
theorem claim2_readiness_timeout (env : Env) (i : Nat)
    (hdir : env.inProjectRoot = true) (hnode : env.nodeInstalled = true)
    (hnpm : env.npmInstalled = true) (hi : i ≤ 2)
    (hprev : ∀ j, j < i → (wait_for_service (env.probe j)).2 = true)
    (hfail : ∀ a, env.probe i a = false)
    (hdies : ∀ j, env.svcDiesOnTERM j = true) :
    probeTimes i (run_start_all env).events =
      (List.range 30).map (fun j => 2 * j) ∧
    Event.abort 1 ∈ (run_start_all env).events ∧
    Event.cleanupStart ∈ (run_start_all env).events ∧
    (∀ j, j ≤ i →
      Event.sigTERM (env.svcPid j) ∈ (run_start_all env).events ∧
      svcProc env j ∉ (run_start_all env).world) := by
  rw [run_start_all, if_neg (by simp [hdir]), run_deps_and_services,
      if_neg (by simp [hnode]), if_neg (by simp [hnpm])]
  obtain ⟨d0, he0, hb0, hf0, hx0, ha0⟩ := preflight_spec
    { world := (initSt env).world, pidFile := none,
      events := (initSt env).events ++ [Event.rmPidFile],
      exitCode := (initSt env).exitCode, atCleanup := (initSt env).atCleanup }
  have hpt : ∀ k, probeTimes k (preflight
      { world := (initSt env).world, pidFile := none,
        events := (initSt env).events ++ [Event.rmPidFile],
        exitCode := (initSt env).exitCode,
        atCleanup := (initSt env).atCleanup }).events = [] := by
    intro k
    rw [he0, probeTimes_append, probeTimes_nil_of_bland hb0 k, List.append_nil]
    rfl
  exact claim2_core env i _ hpt hi hprev hfail hdies

/-- Claim C2, witness: the first service's probe never succeeds. -/
theorem claim2_witness :
    probeTimes 0 (run_start_all envTimeout0).events =
      (List.range 30).map (fun j => 2 * j) ∧
    Event.abort 1 ∈ (run_start_all envTimeout0).events ∧
    Event.cleanupStart ∈ (run_start_all envTimeout0).events ∧
    (∀ j, j ≤ 0 →
      Event.sigTERM (envTimeout0.svcPid j) ∈ (run_start_all envTimeout0).events ∧
      svcProc envTimeout0 j ∉ (run_start_all envTimeout0).world) :=
  claim2_readiness_timeout envTimeout0 0 rfl rfl rfl (by omega)
    (fun j hj => absurd hj (Nat.not_lt_zero j)) (fun a => rfl) (fun j => rfl)

theorem takeWhile_rm_head (tail : List Event) :
    (Event.installTrap :: Event.rmPidFile :: tail).takeWhile
      (fun x => x != Event.rmPidFile) = [Event.installTrap] := by
  simp [List.takeWhile_cons]

/-- Claim C10: the registry file `.service_pids` is deleted at startup
before any launch (no launch event precedes the deletion in the trace), on
any terminated run the file is gone (cleanup removed it), and whenever the
script got past the directory check, the file content seen by cleanup (or
the current content, if the stack is still being monitored) is exactly the
pids of the services launched by this run, in launch order. -/
theorem claim10_registry (env : Env) :
    (∀ e ∈ (run_start_all env).events.takeWhile (fun x => x != Event.rmPidFile),
      isLaunchE e = false) ∧
    ((run_start_all env).exitCode.isSome = true →
      (run_start_all env).pidFile = none) ∧
    (env.inProjectRoot = true →
      fileListAtCleanup (run_start_all env) =
        launchPids (run_start_all env).events) := by
  by_cases hdir : env.inProjectRoot = false
  · have hrun : run_start_all env = scriptExit 1 (initSt env) := by
      rw [run_start_all, if_pos hdir]
    obtain ⟨hw, hf, hx, hac, hev⟩ := scriptExit_fields 1 (initSt env)
    rw [hrun]
    refine ⟨?_, fun _ => hf, fun h => absurd h (by simp [hdir])⟩
    intro e he
    have hsub : e ∈ (scriptExit 1 (initSt env)).events :=
      (List.takeWhile_sublist _).subset he
    rw [hev] at hsub
    rcases List.mem_append.mp hsub with h | h
    · have h1 : e = Event.installTrap := List.mem_singleton.mp h
      rw [h1]
      rfl
    · rcases List.mem_cons.mp h with h1 | h1
      · rw [h1]
        rfl
      · rcases List.mem_cons.mp h1 with h2 | h2
        · rw [h2]
          rfl
        · exact noLaunch_of_bland (all_bland_of_all_cleanupEv
            (cleanup_core_events_cleanupEv _ _)) e h2
  · have hdir2 : env.inProjectRoot = true := by
      revert hdir
      cases env.inProjectRoot <;> simp
    rw [run_start_all, if_neg hdir, run_deps_and_services]
    obtain ⟨d0, he0, hb0, hf0, hx0, ha0⟩ := preflight_spec
      { world := (initSt env).world, pidFile := none,
        events := (initSt env).events ++ [Event.rmPidFile],
        exitCode := (initSt env).exitCode, atCleanup := (initSt env).atCleanup }
    have hregS : (preflight
        { world := (initSt env).world, pidFile := none,
          events := (initSt env).events ++ [Event.rmPidFile],
          exitCode := (initSt env).exitCode,
          atCleanup := (initSt env).atCleanup }).pidFile.getD [] =
        launchPids (preflight
        { world := (initSt env).world, pidFile := none,
          events := (initSt env).events ++ [Event.rmPidFile],
          exitCode := (initSt env).exitCode,
          atCleanup := (initSt env).atCleanup }).events := by
      rw [he0, launchPids_append, launchPids_nil_of_bland hb0, List.append_nil,
          hf0]
      rfl
    split
    · -- node missing
      obtain ⟨d1, hd1⟩ := scriptExit_events_ext 1 (preflight
        { world := (initSt env).world, pidFile := none,
          events := (initSt env).events ++ [Event.rmPidFile],
          exitCode := (initSt env).exitCode,
          atCleanup := (initSt env).atCleanup })
      have hevfull : (scriptExit 1 (preflight
          { world := (initSt env).world, pidFile := none,
            events := (initSt env).events ++ [Event.rmPidFile],
            exitCode := (initSt env).exitCode,
            atCleanup := (initSt env).atCleanup })).events =
          Event.installTrap :: Event.rmPidFile :: (d0 ++ d1) := by
        rw [hd1, he0, List.append_assoc]
        rfl
      obtain ⟨hfn, hxn, f, hacf, hflp⟩ := scriptExit_reg_spec 1 _ hregS
      refine ⟨?_, fun _ => hfn, fun _ => ?_⟩
      · intro e he
        rw [hevfull, takeWhile_rm_head] at he
        rw [List.mem_singleton.mp he]
        rfl
      · rw [fileListAtCleanup, hacf]
        exact hflp
    · split
      · -- npm missing
        obtain ⟨d1, hd1⟩ := scriptExit_events_ext 1 (preflight
          { world := (initSt env).world, pidFile := none,
            events := (initSt env).events ++ [Event.rmPidFile],
            exitCode := (initSt env).exitCode,
            atCleanup := (initSt env).atCleanup })
        have hevfull : (scriptExit 1 (preflight
            { world := (initSt env).world, pidFile := none,
              events := (initSt env).events ++ [Event.rmPidFile],
              exitCode := (initSt env).exitCode,
              atCleanup := (initSt env).atCleanup })).events =
            Event.installTrap :: Event.rmPidFile :: (d0 ++ d1) := by
          rw [hd1, he0, List.append_assoc]
          rfl
        obtain ⟨hfn, hxn, f, hacf, hflp⟩ := scriptExit_reg_spec 1 _ hregS
        refine ⟨?_, fun _ => hfn, fun _ => ?_⟩
        · intro e he
          rw [hevfull, takeWhile_rm_head] at he
          rw [List.mem_singleton.mp he]
          rfl
        · rw [fileListAtCleanup, hacf]
          exact hflp
      · -- full startup path
        obtain ⟨d1, hd1⟩ := run_stage0_events_ext env (preflight
          { world := (initSt env).world, pidFile := none,
            events := (initSt env).events ++ [Event.rmPidFile],
            exitCode := (initSt env).exitCode,
            atCleanup := (initSt env).atCleanup })
        have hevfull : (run_stage0 env (preflight
            { world := (initSt env).world, pidFile := none,
              events := (initSt env).events ++ [Event.rmPidFile],
              exitCode := (initSt env).exitCode,
              atCleanup := (initSt env).atCleanup })).events =
            Event.installTrap :: Event.rmPidFile :: (d0 ++ d1) := by
          rw [hd1, he0, List.append_assoc]
          rfl
        have hreg := stage0_reg_spec env _ (hx0.trans rfl) (ha0.trans rfl) hregS
        refine ⟨?_, ?_, fun _ => ?_⟩
        · intro e he
          rw [hevfull, takeWhile_rm_head] at he
          rw [List.mem_singleton.mp he]
          rfl
        · intro h
          rcases hreg with ⟨hxn, _, _⟩ | ⟨hfn, _, _⟩
          · rw [hxn] at h
            cases h
          · exact hfn
        · rcases hreg with ⟨hxn, hacn, hregn⟩ | ⟨hfn, hxn, f, hacf, hflp⟩
          · rw [fileListAtCleanup, hacn]
            exact hregn
          · rw [fileListAtCleanup, hacf]
            exact hflp

/-- Claim C10, witness: a full healthy startup followed by a
monitor-detected failure: the registry file content at cleanup equals the
launched pids in order, and the file is removed. -/
theorem claim10_witness :
    envMonitorFail.inProjectRoot = true ∧
    (run_start_all envMonitorFail).exitCode.isSome = true ∧
    (run_start_all envMonitorFail).pidFile = none ∧
    fileListAtCleanup (run_start_all envMonitorFail) =
      launchPids (run_start_all envMonitorFail).events := by
  have h := claim10_registry envMonitorFail
  have hs : (run_start_all envMonitorFail).exitCode.isSome = true := by decide
  exact ⟨rfl, hs, h.2.1 hs, h.2.2 rfl⟩

end StartAll
